import Mathlib

/-!
# Platform detection of `operator-utils`

A shallow embedding of `pkg/platform/platform_versioner.go` and
`pkg/utils/openshift/utils.go`.

* A Go `string` is a sequence of bytes, so `s[:4]` and `len(s)` count bytes.
* A Go `error` value is `Option GoError`; `none` is `nil`.
* A Go pointer result is an `Option`; `none` is `nil`, and reading a field
  through it is a run-time panic.
* The discoverer is an object with hidden state: each of its operations
  answers as a function of the calls made on it so far (oldest first).
  Every call made by `GetPlatformInfo` is appended to the list of calls that
  the run returns next to its outcome.
* Logging (`log.Info`, `log.Error`, `info.String()`) is a side channel and
  is left out.
-/

namespace platform

/-- A Go `string`: a read-only sequence of bytes. -/
abbrev GoString := List UInt8

/-- The bytes of a string literal of the source. -/
def str (s : String) : GoString := s.toList.flatMap String.utf8EncodeChar

/-- The package's error sentinels (`errors.New` values compared by identity),
and `foreign` for every error value made outside the package. Package
`openshift` declares `ErrInfoFetch` again in `utils.go`; the constructor
stands for the variable of the package the function at hand lives in. -/
inductive GoError
  | ErrInfoFetch
  | ErrDefaultingArgs
  | ErrRestConfigFetch
  | ErrDiscoveryClientFetch
  | ErrK8SVersionFetch
  | ErrServerGroupsFetch
  | ErrOpenAPISchemaFetch
  | ErrClusterVersionFetch
  | ErrVersionMarshalling
  | foreign (msg : GoString)
  deriving DecidableEq, Repr

/-- Run-time panics of the Go code. -/
inductive Panic
  | nilDereference
  | sliceOutOfRange
  deriving DecidableEq, Repr

/-- How a Go call ends: it returns its results, or it panics. -/
inductive Outcome (α : Type)
  | returned (a : α)
  | panicked (p : Panic)
  deriving DecidableEq, Repr

/-- Modelled from the spec: the platform name type of the descriptor, whose
declaration (`PlatformType` with the constants `OpenShift` and `Kubernetes`)
is not among the sources; section 3 gives it as the enumeration
{Kubernetes, OpenShift}. -/
inductive PlatformType
  | Kubernetes
  | OpenShift
  deriving DecidableEq, Repr

/-- Modelled from the spec: the platform descriptor `PlatformInfo`, whose
declaration is not among the sources; the fields are those of section 3 and
of the struct literals in the tests. -/
structure PlatformInfo where
  Name : PlatformType
  OCPVersion : GoString
  K8SVersion : GoString
  OS : GoString
  deriving DecidableEq, Repr

/-- Modelled from the spec: innermost level of the raw cluster-version
payload `{status: {desired: {version: string}}}`. -/
structure PlatformClusterInfoDesired where
  Version : GoString
  deriving DecidableEq, Repr

/-- Modelled from the spec: middle level of the raw cluster-version payload. -/
structure PlatformClusterInfoStatus where
  Desired : PlatformClusterInfoDesired
  deriving DecidableEq, Repr

/-- Modelled from the spec: the raw cluster-version payload
`PlatformClusterInfo`, read as `cvi.Status.Desired.Version`; its declaration
is not among the sources. -/
structure PlatformClusterInfo where
  Status : PlatformClusterInfoStatus
  deriving DecidableEq, Repr

/-- The fields of `version.Info` (k8s.io/apimachinery) that the code reads. -/
structure VersionInfo where
  Major : GoString
  Minor : GoString
  Platform : GoString
  deriving DecidableEq, Repr

/-- The field of `v1.APIGroup` that the code reads. -/
structure APIGroup where
  Name : GoString
  deriving DecidableEq, Repr

/-- The field of `v1.APIGroupList` that the code reads. -/
structure APIGroupList where
  Groups : List APIGroup
  deriving DecidableEq, Repr

/-- The field of `openapi_v2.Info` that the code reads. -/
structure DocumentInfo where
  Version : GoString
  deriving DecidableEq, Repr

/-- The field of `openapi_v2.Document` that the code reads; `Info` is a
pointer. -/
structure Document where
  Info : Option DocumentInfo
  deriving DecidableEq, Repr

/-- The field of `rest.Config` that tells two configurations apart. -/
structure RestConfig where
  Host : GoString
  deriving DecidableEq, Repr

/-- One call made on the discoverer, or on the REST client it hands out. -/
inductive Call
  | ServerVersion
  | ServerGroups
  | OpenAPISchema
  | RESTClient
  | Get (absPath : GoString)
  deriving DecidableEq, Repr

/-- The use the code makes of `rest.Interface`: the request chain
`Get().AbsPath(p).Do().Raw()`, answering with a body and an error. The
second argument is the list of calls made so far. -/
structure RESTInterface where
  Raw : GoString → List Call → List UInt8 × Option GoError

/-- The `Discoverer` interface. Each operation answers from the list of the
calls made so far, so that a discoverer may answer differently from one call
to the next. -/
structure Discoverer where
  ServerVersion : List Call → Option VersionInfo × Option GoError
  ServerGroups : List Call → Option APIGroupList × Option GoError
  OpenAPISchema : List Call → Option Document × Option GoError
  RESTClient : List Call → Option RESTInterface

/-- The functions of other libraries that the code calls:
`config.GetConfig()`, `discovery.NewDiscoveryClientForConfig(cfg)` and
`json.Unmarshal(body, &cvi)` (the payload after the call, and the error). -/
structure Env where
  GetConfig : Option RestConfig × Option GoError
  NewDiscoveryClientForConfig : Option RestConfig → Option Discoverer × Option GoError
  jsonUnmarshal : List UInt8 → PlatformClusterInfo × Option GoError

/-- The result of one run of `GetPlatformInfo`: how the call ended, and the
calls it made on the discoverer, oldest first. -/
structure Run where
  outcome : Outcome (PlatformInfo × Option GoError)
  calls : List Call
  deriving DecidableEq, Repr

/-- The package variable `ClusterVersionApiPath`. -/
def ClusterVersionApiPath : GoString :=
  str "apis/config.openshift.io/v1/clusterversions/version"

/-- The method `K8SBasedPlatformVersioner.DefaultArgs`. -/
def DefaultArgs (env : Env) (client : Option Discoverer) (cfg : Option RestConfig) :
    Option Discoverer × Option RestConfig × Option GoError :=
  match (match cfg with
         | none => env.GetConfig
         | some c => (some c, none)) with
  | (_, some _) => (none, none, some GoError.ErrRestConfigFetch)
  | (cfg, none) =>
    match client with
    | some c => (some c, cfg, none)
    | none =>
      match env.NewDiscoveryClientForConfig cfg with
      | (_, some _) => (none, none, some GoError.ErrDiscoveryClientFetch)
      | (client, none) => (client, cfg, none)

/-- The loop `for _, v := range apiList.Groups` of `GetPlatformInfo`, from
the groups still to visit, the descriptor so far and the calls so far. The
loop has no `break`: every group named `route.openshift.io` runs the body. -/
def scanGroups (env : Env) (client : Discoverer) :
    List APIGroup → PlatformInfo → List Call → Run
  | [], info, calls => ⟨Outcome.returned (info, none), calls⟩
  | v :: rest, info, calls =>
    if v.Name = str "route.openshift.io" then
      let info := { info with Name := PlatformType.OpenShift }
      match client.OpenAPISchema calls with
      | (_, some _) =>
        ⟨Outcome.returned (info, some GoError.ErrOpenAPISchemaFetch), calls ++ [Call.OpenAPISchema]⟩
      | (none, none) => ⟨Outcome.panicked Panic.nilDereference, calls ++ [Call.OpenAPISchema]⟩
      | (some doc, none) =>
        let calls := calls ++ [Call.OpenAPISchema]
        match doc.Info with
        | none => ⟨Outcome.panicked Panic.nilDereference, calls⟩
        | some docInfo =>
          if docInfo.Version.length < 4 then ⟨Outcome.panicked Panic.sliceOutOfRange, calls⟩
          else if docInfo.Version.take 4 = str "v3.1" then
            scanGroups env client rest { info with OCPVersion := docInfo.Version } calls
          else if docInfo.Version.take 4 = str "v1.1" then
            match client.RESTClient calls with
            | none => ⟨Outcome.panicked Panic.nilDereference, calls ++ [Call.RESTClient]⟩
            | some rc =>
              let calls := calls ++ [Call.RESTClient]
              match rc.Raw ClusterVersionApiPath calls with
              | (_, some _) =>
                ⟨Outcome.returned (info, some GoError.ErrClusterVersionFetch),
                  calls ++ [Call.Get ClusterVersionApiPath]⟩
              | (body, none) =>
                let calls := calls ++ [Call.Get ClusterVersionApiPath]
                match env.jsonUnmarshal body with
                | (_, some _) => ⟨Outcome.returned (info, some GoError.ErrVersionMarshalling), calls⟩
                | (cvi, none) =>
                  scanGroups env client rest { info with OCPVersion := cvi.Status.Desired.Version } calls
          else scanGroups env client rest info calls
    else scanGroups env client rest info calls

/-- The method `K8SBasedPlatformVersioner.GetPlatformInfo`. -/
def GetPlatformInfo (env : Env) (client : Option Discoverer) (cfg : Option RestConfig) : Run :=
  let info : PlatformInfo :=
    { Name := PlatformType.Kubernetes, OCPVersion := [], K8SVersion := [], OS := [] }
  match DefaultArgs env client cfg with
  | (_, _, some _) => ⟨Outcome.returned (info, some GoError.ErrDefaultingArgs), []⟩
  | (none, _, none) => ⟨Outcome.panicked Panic.nilDereference, []⟩
  | (some client, _, none) =>
    match client.ServerVersion [] with
    | (_, some _) => ⟨Outcome.returned (info, some GoError.ErrK8SVersionFetch), [Call.ServerVersion]⟩
    | (none, none) => ⟨Outcome.panicked Panic.nilDereference, [Call.ServerVersion]⟩
    | (some k8sVersion, none) =>
      let info := { info with
        K8SVersion := k8sVersion.Major ++ str "." ++ k8sVersion.Minor
        OS := k8sVersion.Platform }
      match client.ServerGroups [Call.ServerVersion] with
      | (_, some _) =>
        ⟨Outcome.returned (info, some GoError.ErrServerGroupsFetch),
          [Call.ServerVersion, Call.ServerGroups]⟩
      | (none, none) =>
        ⟨Outcome.panicked Panic.nilDereference, [Call.ServerVersion, Call.ServerGroups]⟩
      | (some apiList, none) =>
        scanGroups env client apiList.Groups info [Call.ServerVersion, Call.ServerGroups]

/-- The `PlatformVersioner` interface: its one method, as the outcome of a
call. -/
structure PlatformVersioner where
  GetPlatformInfo : Option Discoverer → Option RestConfig → Outcome (PlatformInfo × Option GoError)

/-- The struct `K8SBasedPlatformVersioner` seen through the interface. -/
def K8SBasedPlatformVersioner (env : Env) : PlatformVersioner :=
  { GetPlatformInfo := fun client cfg => (GetPlatformInfo env client cfg).outcome }

/-- The function `DetectOpenShift` of `platform_versioner.go`. -/
def DetectOpenShift (env : Env) (pv : Option PlatformVersioner) (cfg : Option RestConfig) :
    Outcome (Bool × Option GoError) :=
  let pv := match pv with
    | none => K8SBasedPlatformVersioner env
    | some pv => pv
  match pv.GetPlatformInfo none cfg with
  | Outcome.panicked p => Outcome.panicked p
  | Outcome.returned (_, some _) => Outcome.returned (false, some GoError.ErrInfoFetch)
  | Outcome.returned (info, none) =>
    Outcome.returned (decide (info.Name = PlatformType.OpenShift), none)

end platform

namespace openshift

open platform

/-- The function `DetectOpenShift` of `utils.go`, over the declarations of
package `platform`. -/
def DetectOpenShift (env : Env) (pv : Option PlatformVersioner) (cfg : Option RestConfig) :
    Outcome (Bool × Option GoError) :=
  let pv := match pv with
    | none => K8SBasedPlatformVersioner env
    | some pv => pv
  match pv.GetPlatformInfo none cfg with
  | Outcome.panicked p => Outcome.panicked p
  | Outcome.returned (_, some _) => Outcome.returned (false, some GoError.ErrInfoFetch)
  | Outcome.returned (info, none) =>
    Outcome.returned (decide (info.Name = PlatformType.OpenShift), none)

/-- The function `IsOpenShift` of `utils.go`. -/
def IsOpenShift (env : Env) (cfg : Option RestConfig) : Outcome (Bool × Option GoError) :=
  DetectOpenShift env none cfg

end openshift

namespace platform

/-- The test double `FakeDiscoverer` of `platform_versioner_test.go` (its
field `info`, which no method reads, is left out). -/
structure FakeDiscoverer where
  serverInfo : Option VersionInfo
  groupList : Option APIGroupList
  doc : Option Document
  client : Option RESTInterface
  ServerVersionError : Option GoError
  ServerGroupsError : Option GoError
  OpenAPISchemaError : Option GoError

/-- The four methods of `FakeDiscoverer`: the same answer at every call. -/
def FakeDiscoverer.discoverer (d : FakeDiscoverer) : Discoverer :=
  { ServerVersion := fun _ =>
      match d.ServerVersionError with
      | some e => (none, some e)
      | none => (d.serverInfo, none)
    ServerGroups := fun _ =>
      match d.ServerGroupsError with
      | some e => (none, some e)
      | none => (d.groupList, none)
    OpenAPISchema := fun _ =>
      match d.OpenAPISchemaError with
      | some e => (none, some e)
      | none => (d.doc, none)
    RESTClient := fun _ => d.client }

/-- The test double `FakePlatformVersioner` of `utils_test.go`. -/
structure FakePlatformVersioner where
  Info : PlatformInfo
  Err : Option GoError

/-- The method `FakePlatformVersioner.GetPlatformInfo`. -/
def FakePlatformVersioner.versioner (pv : FakePlatformVersioner) : PlatformVersioner :=
  { GetPlatformInfo := fun _ _ =>
      match pv.Err with
      | some e => Outcome.returned (pv.Info, some e)
      | none => Outcome.returned (pv.Info, none) }

/-- An environment in which the ambient configuration loads, no discovery
client can be built, and a response body parses exactly when it is the text
`payload`, to the desired version `4.1.0`. -/
def sampleEnv : Env :=
  { GetConfig := (some ⟨str "https://cluster"⟩, none)
    NewDiscoveryClientForConfig := fun _ => (none, some (GoError.foreign (str "no client")))
    jsonUnmarshal := fun body =>
      if body = str "payload" then (⟨⟨⟨str "4.1.0"⟩⟩⟩, none)
      else (⟨⟨⟨[]⟩⟩⟩, some (GoError.foreign (str "bad json"))) }

/-- The server version of the tests: major `1`, minor `2`. -/
def sampleVersion : VersionInfo := ⟨str "1", str "2", str "linux/amd64"⟩

/-- The group of the tests, named `route.openshift.io`. -/
def routeGroup : APIGroup := ⟨str "route.openshift.io"⟩

/-- A fake discoverer with the given groups, schema document and REST
client, and no error set. -/
def sampleFake (groups : List APIGroup) (doc : Option Document)
    (client : Option RESTInterface) : FakeDiscoverer :=
  { serverInfo := some sampleVersion
    groupList := some ⟨groups⟩
    doc := doc
    client := client
    ServerVersionError := none
    ServerGroupsError := none
    OpenAPISchemaError := none }

/-- A REST client whose GET answers the body `payload`. -/
def okClient : RESTInterface := ⟨fun _ _ => (str "payload", none)⟩

/-- A REST client whose GET fails. -/
def failingClient : RESTInterface :=
  ⟨fun _ _ => ([], some (GoError.foreign (str "timeout")))⟩

/-- A REST client whose GET answers a body that is no cluster-version
payload. -/
def garbageClient : RESTInterface := ⟨fun _ _ => (str "<html>", none)⟩

/-- Case 1 of the test table: ServerVersion fails. -/
def fakeCase1 : FakeDiscoverer :=
  { serverInfo := none
    groupList := none
    doc := none
    client := none
    ServerVersionError := some (GoError.foreign (str "oops"))
    ServerGroupsError := none
    OpenAPISchemaError := none }

/-- Case 2 of the test table: ServerGroups fails. -/
def fakeCase2 : FakeDiscoverer :=
  { serverInfo := some sampleVersion
    groupList := none
    doc := none
    client := none
    ServerVersionError := none
    ServerGroupsError := some (GoError.foreign (str "oops"))
    OpenAPISchemaError := none }

/-- Case 4 of the test table: the route group is there and OpenAPISchema
fails. -/
def fakeCase4 : FakeDiscoverer :=
  { serverInfo := some sampleVersion
    groupList := some ⟨[routeGroup]⟩
    doc := none
    client := none
    ServerVersionError := none
    ServerGroupsError := none
    OpenAPISchemaError := some (GoError.foreign (str "oops")) }

/-- The descriptor `ocpInfo` of `TestDetectOpenShift`. -/
def ocpInfo : PlatformInfo :=
  { Name := PlatformType.OpenShift
    OCPVersion := str "1.2.3"
    K8SVersion := str "4.5.6"
    OS := str "foo/bar" }

/-- How one round of the loop on a group named `route.openshift.io` ends:
the function returns or panics there (`stop`), or the loop goes on to the
next group with a descriptor and the calls made so far (`next`). -/
inductive Round
  | stop (outcome : Outcome (PlatformInfo × Option GoError)) (calls : List Call)
  | next (info : PlatformInfo) (calls : List Call)
  deriving DecidableEq, Repr

/-- The body of the loop of `GetPlatformInfo` for a group named
`route.openshift.io`, as a function of its own; `scanGroups` runs it on every
such group (theorem `scanGroups_cons_route`). -/
def routeRound (env : Env) (client : Discoverer) (info : PlatformInfo) (calls : List Call) :
    Round :=
  let info := { info with Name := PlatformType.OpenShift }
  match client.OpenAPISchema calls with
  | (_, some _) =>
    Round.stop (Outcome.returned (info, some GoError.ErrOpenAPISchemaFetch))
      (calls ++ [Call.OpenAPISchema])
  | (none, none) =>
    Round.stop (Outcome.panicked Panic.nilDereference) (calls ++ [Call.OpenAPISchema])
  | (some doc, none) =>
    let calls := calls ++ [Call.OpenAPISchema]
    match doc.Info with
    | none => Round.stop (Outcome.panicked Panic.nilDereference) calls
    | some docInfo =>
      if docInfo.Version.length < 4 then
        Round.stop (Outcome.panicked Panic.sliceOutOfRange) calls
      else if docInfo.Version.take 4 = str "v3.1" then
        Round.next { info with OCPVersion := docInfo.Version } calls
      else if docInfo.Version.take 4 = str "v1.1" then
        match client.RESTClient calls with
        | none => Round.stop (Outcome.panicked Panic.nilDereference) (calls ++ [Call.RESTClient])
        | some rc =>
          let calls := calls ++ [Call.RESTClient]
          match rc.Raw ClusterVersionApiPath calls with
          | (_, some _) =>
            Round.stop (Outcome.returned (info, some GoError.ErrClusterVersionFetch))
              (calls ++ [Call.Get ClusterVersionApiPath])
          | (body, none) =>
            let calls := calls ++ [Call.Get ClusterVersionApiPath]
            match env.jsonUnmarshal body with
            | (_, some _) =>
              Round.stop (Outcome.returned (info, some GoError.ErrVersionMarshalling)) calls
            | (cvi, none) =>
              Round.next { info with OCPVersion := cvi.Status.Desired.Version } calls
      else Round.next info calls

/-- The calls made when a round has ended. -/
def Round.calls : Round → List Call
  | Round.stop _ c => c
  | Round.next _ c => c

/-- A descriptor's OCP version is accounted for by the calls made: when it is
not empty, the descriptor is named OpenShift and one of the calls made is an
OpenAPISchema call, made after the calls `h`, that answered a document whose
version starts with `v3.1` or with `v1.1`. -/
def OCPVersionJustified (d : Discoverer) (info : PlatformInfo) (calls : List Call) : Prop :=
  info.OCPVersion ≠ [] →
    info.Name = PlatformType.OpenShift ∧
    ∃ h doc docInfo, h ++ [Call.OpenAPISchema] <+: calls ∧
      d.OpenAPISchema h = (some doc, none) ∧ doc.Info = some docInfo ∧
      (docInfo.Version.take 4 = str "v3.1" ∨ docInfo.Version.take 4 = str "v1.1")

/-- A deterministic discoverer: each operation, and the GET of the REST
client it hands out, answers the same at every call. -/
def Discoverer.Deterministic (d : Discoverer) : Prop :=
  (∀ h, d.ServerVersion h = d.ServerVersion []) ∧
  (∀ h, d.ServerGroups h = d.ServerGroups []) ∧
  (∀ h, d.OpenAPISchema h = d.OpenAPISchema []) ∧
  (∀ h, d.RESTClient h = d.RESTClient []) ∧
  (∀ rc, d.RESTClient [] = some rc → ∀ p h, rc.Raw p h = rc.Raw p [])

/-- Whether a group list holds a group named `route.openshift.io`. -/
def hasRouteGroup (gs : List APIGroup) : Bool :=
  gs.any (fun g => decide (g.Name = str "route.openshift.io"))

/-- The steps of the detection sequence of section 4.3 of the spec. -/
inductive Step
  | defaulting
  | serverVersion
  | serverGroups
  | openAPISchema
  | rawGet
  | payloadParse
  deriving DecidableEq, Repr

/-- The fixed order of the steps (section 4.3 of the spec). -/
def fixedOrder : List Step :=
  [Step.defaulting, Step.serverVersion, Step.serverGroups, Step.openAPISchema,
    Step.rawGet, Step.payloadParse]

/-- The error kind that the spec gives to the failure of each step. -/
def Step.kind : Step → GoError
  | Step.defaulting => GoError.ErrDefaultingArgs
  | Step.serverVersion => GoError.ErrK8SVersionFetch
  | Step.serverGroups => GoError.ErrServerGroupsFetch
  | Step.openAPISchema => GoError.ErrOpenAPISchemaFetch
  | Step.rawGet => GoError.ErrClusterVersionFetch
  | Step.payloadParse => GoError.ErrVersionMarshalling

/-- The calls on the discoverer that the sequence has made when a step has
just been run: those of the steps up to and including it. -/
def Step.callsThrough : Step → List Call
  | Step.defaulting => []
  | Step.serverVersion => [Call.ServerVersion]
  | Step.serverGroups => [Call.ServerVersion, Call.ServerGroups]
  | Step.openAPISchema => [Call.ServerVersion, Call.ServerGroups, Call.OpenAPISchema]
  | Step.rawGet =>
    [Call.ServerVersion, Call.ServerGroups, Call.OpenAPISchema, Call.RESTClient,
      Call.Get ClusterVersionApiPath]
  | Step.payloadParse =>
    [Call.ServerVersion, Call.ServerGroups, Call.OpenAPISchema, Call.RESTClient,
      Call.Get ClusterVersionApiPath]

/-- The version of the schema document that a deterministic discoverer
answers, when it answers one. -/
def schemaVersion (d : Discoverer) : Option GoString :=
  match d.OpenAPISchema [] with
  | (some doc, none) => doc.Info.map (fun docInfo => docInfo.Version)
  | _ => none

/-- Whether the sequence of section 4.3 runs a step of a supplied
deterministic discoverer when no earlier step fails: the schema fetch only
when the route group is listed, the GET and the parse of its body only when
moreover the schema version starts with `v1.1`. -/
def stepRuns (d : Discoverer) : Step → Bool
  | Step.defaulting => true
  | Step.serverVersion => true
  | Step.serverGroups => true
  | Step.openAPISchema =>
    match (d.ServerGroups []).1 with
    | some gl => hasRouteGroup gl.Groups
    | none => false
  | Step.rawGet =>
    (match (d.ServerGroups []).1 with
      | some gl => hasRouteGroup gl.Groups
      | none => false) &&
    (match schemaVersion d with
      | some v => decide (v.take 4 = str "v1.1")
      | none => false)
  | Step.payloadParse =>
    (match (d.ServerGroups []).1 with
      | some gl => hasRouteGroup gl.Groups
      | none => false) &&
    (match schemaVersion d with
      | some v => decide (v.take 4 = str "v1.1")
      | none => false)

/-- Whether a step fails on a supplied deterministic discoverer. -/
def stepFails (env : Env) (d : Discoverer) (cfg : Option RestConfig) : Step → Bool
  | Step.defaulting => (DefaultArgs env (some d) cfg).2.2.isSome
  | Step.serverVersion => (d.ServerVersion []).2.isSome
  | Step.serverGroups => (d.ServerGroups []).2.isSome
  | Step.openAPISchema => (d.OpenAPISchema []).2.isSome
  | Step.rawGet =>
    match d.RESTClient [] with
    | some rc => (rc.Raw ClusterVersionApiPath []).2.isSome
    | none => false
  | Step.payloadParse =>
    match d.RESTClient [] with
    | some rc => (env.jsonUnmarshal (rc.Raw ClusterVersionApiPath []).1).2.isSome
    | none => false

/-- The first step, in the fixed order, that is run and fails. -/
def firstFailingStep (env : Env) (d : Discoverer) (cfg : Option RestConfig) : Option Step :=
  fixedOrder.find? (fun s => stepRuns d s && stepFails env d cfg s)

/-- An environment in which the ambient configuration cannot be loaded. -/
def noConfigEnv : Env :=
  { GetConfig := (none, some (GoError.foreign (str "no kubeconfig")))
    NewDiscoveryClientForConfig := fun _ => (none, some (GoError.foreign (str "no client")))
    jsonUnmarshal := fun _ => (⟨⟨⟨[]⟩⟩⟩, some (GoError.foreign (str "bad json"))) }

/-- An environment in which the ambient configuration loads and the
discovery client built from it is the given discoverer. -/
def clientEnv (d : Discoverer) : Env :=
  { GetConfig := (some ⟨str "https://cluster"⟩, none)
    NewDiscoveryClientForConfig := fun _ => (some d, none)
    jsonUnmarshal := fun _ => (⟨⟨⟨[]⟩⟩⟩, some (GoError.foreign (str "bad json"))) }

end platform

/-! ## Theorems -/

namespace platform

/-- Both version tags of the switch are four bytes long. -/
theorem version_tag_length : (str "v3.1").length = 4 ∧ (str "v1.1").length = 4 := by
  decide

/-- Once defaulting has succeeded, the version fetch and the groups fetch
each answered, the run is the scan of the groups. -/
theorem GetPlatformInfo_eq_scan (env : Env) (client : Option Discoverer) (cfg cfg1 : Option RestConfig)
    (d : Discoverer) (vi : VersionInfo) (gl : APIGroupList)
    (hdef : DefaultArgs env client cfg = (some d, cfg1, none))
    (hsv : d.ServerVersion [] = (some vi, none))
    (hsg : d.ServerGroups [Call.ServerVersion] = (some gl, none)) :
    GetPlatformInfo env client cfg =
      scanGroups env d gl.Groups
        { Name := PlatformType.Kubernetes, OCPVersion := [],
          K8SVersion := vi.Major ++ str "." ++ vi.Minor, OS := vi.Platform }
        [Call.ServerVersion, Call.ServerGroups] := by
  simp [GetPlatformInfo, hdef, hsv, hsg]

/-- A list without the route group is scanned without any call. -/
theorem scanGroups_no_route (env : Env) (d : Discoverer) (gs : List APIGroup)
    (info : PlatformInfo) (calls : List Call)
    (hno : ∀ g ∈ gs, g.Name ≠ str "route.openshift.io") :
    scanGroups env d gs info calls = ⟨Outcome.returned (info, none), calls⟩ := by
  induction gs generalizing info calls with
  | nil => rfl
  | cons g rest ih =>
    have hg : g.Name ≠ str "route.openshift.io" := hno g (List.mem_cons_self _ _)
    have hrest : ∀ x ∈ rest, x.Name ≠ str "route.openshift.io" :=
      fun x hx => hno x (List.mem_cons_of_mem _ hx)
    simp only [scanGroups, if_neg hg]
    exact ih info calls hrest

/-- A scan that starts from a descriptor named OpenShift returns only
descriptors named OpenShift. -/
theorem scanGroups_name_of_openshift (env : Env) (d : Discoverer) (gs : List APIGroup)
    (info : PlatformInfo) (calls : List Call) (hname : info.Name = PlatformType.OpenShift)
    (i : PlatformInfo) (e : Option GoError)
    (hret : (scanGroups env d gs info calls).outcome = Outcome.returned (i, e)) :
    i.Name = PlatformType.OpenShift := by
  induction gs generalizing info calls with
  | nil =>
    simp only [scanGroups, Outcome.returned.injEq, Prod.mk.injEq] at hret
    rw [← hret.1]; exact hname
  | cons g rest ih =>
    simp only [scanGroups] at hret
    split at hret
    · split at hret
      · simp only [Outcome.returned.injEq, Prod.mk.injEq] at hret
        rw [← hret.1]
      · simp at hret
      · split at hret
        · simp at hret
        · split at hret
          · simp at hret
          · split at hret
            · exact ih _ _ rfl hret
            · split at hret
              · split at hret
                · simp at hret
                · split at hret
                  · simp only [Outcome.returned.injEq, Prod.mk.injEq] at hret
                    rw [← hret.1]
                  · split at hret
                    · simp only [Outcome.returned.injEq, Prod.mk.injEq] at hret
                      rw [← hret.1]
                    · exact ih _ _ rfl hret
              · exact ih _ _ rfl hret
    · exact ih _ _ hname hret

/-- The two version tags of the switch differ. -/
theorem str_v11_ne_v31 : str "v1.1" ≠ str "v3.1" := by decide

/-- A string whose first four bytes equal a four-byte tag has at least four
bytes. -/
theorem four_le_of_take_eq (v : GoString) (p : GoString) (hp : p.length = 4)
    (h : v.take 4 = p) : ¬ v.length < 4 := by
  have h1 : (v.take 4).length = 4 := by rw [h, hp]
  rw [List.length_take] at h1
  omega

/-- One loop round on a group that is not the route group: nothing changes. -/
theorem scanGroups_cons_other (env : Env) (d : Discoverer) (g : APIGroup) (rest : List APIGroup)
    (info : PlatformInfo) (calls : List Call) (hg : g.Name ≠ str "route.openshift.io") :
    scanGroups env d (g :: rest) info calls = scanGroups env d rest info calls := by
  simp only [scanGroups, if_neg hg]

/-- One loop round on the route group when the schema version starts with
`v3.1`. -/
theorem scanGroups_cons_v31 (env : Env) (d : Discoverer) (g : APIGroup) (rest : List APIGroup)
    (info : PlatformInfo) (calls : List Call) (doc : Document) (di : DocumentInfo)
    (hg : g.Name = str "route.openshift.io")
    (hsc : d.OpenAPISchema calls = (some doc, none)) (hdi : doc.Info = some di)
    (hpre : di.Version.take 4 = str "v3.1") :
    scanGroups env d (g :: rest) info calls =
      scanGroups env d rest
        { info with Name := PlatformType.OpenShift, OCPVersion := di.Version }
        (calls ++ [Call.OpenAPISchema]) := by
  have hlen := four_le_of_take_eq di.Version _ version_tag_length.1 hpre
  simp only [scanGroups, if_pos hg, hsc, hdi, if_neg hlen, if_pos hpre]

/-- One loop round on the route group when the schema version starts with
neither tag. -/
theorem scanGroups_cons_skip (env : Env) (d : Discoverer) (g : APIGroup) (rest : List APIGroup)
    (info : PlatformInfo) (calls : List Call) (doc : Document) (di : DocumentInfo)
    (hg : g.Name = str "route.openshift.io")
    (hsc : d.OpenAPISchema calls = (some doc, none)) (hdi : doc.Info = some di)
    (hlen : 4 ≤ di.Version.length)
    (h31 : di.Version.take 4 ≠ str "v3.1") (h11 : di.Version.take 4 ≠ str "v1.1") :
    scanGroups env d (g :: rest) info calls =
      scanGroups env d rest { info with Name := PlatformType.OpenShift }
        (calls ++ [Call.OpenAPISchema]) := by
  have hlen1 : ¬ di.Version.length < 4 := by omega
  simp only [scanGroups, if_pos hg, hsc, hdi, if_neg hlen1, if_neg h31, if_neg h11]

/-- One loop round on the route group when the schema version starts with
`v1.1` and a REST client is handed out. -/
theorem scanGroups_cons_v11 (env : Env) (d : Discoverer) (g : APIGroup) (rest : List APIGroup)
    (info : PlatformInfo) (calls : List Call) (doc : Document) (di : DocumentInfo)
    (rc : RESTInterface)
    (hg : g.Name = str "route.openshift.io")
    (hsc : d.OpenAPISchema calls = (some doc, none)) (hdi : doc.Info = some di)
    (hpre : di.Version.take 4 = str "v1.1")
    (hrc : d.RESTClient (calls ++ [Call.OpenAPISchema]) = some rc) :
    scanGroups env d (g :: rest) info calls =
      match rc.Raw ClusterVersionApiPath (calls ++ [Call.OpenAPISchema] ++ [Call.RESTClient]) with
      | (_, some _) =>
        ⟨Outcome.returned ({ info with Name := PlatformType.OpenShift },
            some GoError.ErrClusterVersionFetch),
          calls ++ [Call.OpenAPISchema] ++ [Call.RESTClient] ++ [Call.Get ClusterVersionApiPath]⟩
      | (body, none) =>
        match env.jsonUnmarshal body with
        | (_, some _) =>
          ⟨Outcome.returned ({ info with Name := PlatformType.OpenShift },
              some GoError.ErrVersionMarshalling),
            calls ++ [Call.OpenAPISchema] ++ [Call.RESTClient] ++ [Call.Get ClusterVersionApiPath]⟩
        | (cvi, none) =>
          scanGroups env d rest
            { info with Name := PlatformType.OpenShift, OCPVersion := cvi.Status.Desired.Version }
            (calls ++ [Call.OpenAPISchema] ++ [Call.RESTClient] ++ [Call.Get ClusterVersionApiPath]) := by
  have hlen := four_le_of_take_eq di.Version _ version_tag_length.2 hpre
  have h31 : di.Version.take 4 ≠ str "v3.1" := by rw [hpre]; exact str_v11_ne_v31
  simp only [scanGroups, if_pos hg, hsc, hdi, if_neg hlen, if_neg h31, if_pos hpre, hrc]

/-- A scan that meets the route group first runs as if the descriptor were
already named OpenShift. -/
theorem scanGroups_cons_route_name (env : Env) (d : Discoverer) (g : APIGroup)
    (rest : List APIGroup) (info : PlatformInfo) (calls : List Call)
    (hg : g.Name = str "route.openshift.io") :
    scanGroups env d (g :: rest) info calls =
      scanGroups env d (g :: rest) { info with Name := PlatformType.OpenShift } calls := by
  simp only [scanGroups, if_pos hg]

/-- A route group of a list whose head is none lies in the tail. -/
theorem route_in_tail (g : APIGroup) (rest : List APIGroup)
    (hroute : ∃ x ∈ g :: rest, x.Name = str "route.openshift.io")
    (hg : g.Name ≠ str "route.openshift.io") :
    ∃ x ∈ rest, x.Name = str "route.openshift.io" := by
  obtain ⟨x, hx, hxn⟩ := hroute
  rcases List.mem_cons.1 hx with rfl | hx1
  · exact absurd hxn hg
  · exact ⟨x, hx1, hxn⟩

/-- A scan of a list holding the route group returns only descriptors named
OpenShift. -/
theorem scanGroups_name_of_route (env : Env) (d : Discoverer) (gs : List APIGroup)
    (info : PlatformInfo) (calls : List Call)
    (hroute : ∃ g ∈ gs, g.Name = str "route.openshift.io")
    (i : PlatformInfo) (e : Option GoError)
    (hret : (scanGroups env d gs info calls).outcome = Outcome.returned (i, e)) :
    i.Name = PlatformType.OpenShift := by
  induction gs generalizing info calls with
  | nil => simp at hroute
  | cons g rest ih =>
    by_cases hg : g.Name = str "route.openshift.io"
    · rw [scanGroups_cons_route_name env d g rest info calls hg] at hret
      exact scanGroups_name_of_openshift env d (g :: rest) _ calls rfl i e hret
    · rw [scanGroups_cons_other env d g rest info calls hg] at hret
      have hrest := route_in_tail g rest hroute hg
      exact ih info calls hrest hret

/-- The scan when every schema answer starts with `v3.1`: one OpenAPISchema
call for each route group, and the schema version as the OCP version. -/
theorem scanGroups_all_v31 (env : Env) (d : Discoverer) (gs : List APIGroup)
    (info : PlatformInfo) (calls : List Call) (doc : Document) (di : DocumentInfo)
    (hsc : ∀ h, d.OpenAPISchema h = (some doc, none)) (hdi : doc.Info = some di)
    (hpre : di.Version.take 4 = str "v3.1")
    (hroute : ∃ g ∈ gs, g.Name = str "route.openshift.io") :
    scanGroups env d gs info calls =
      ⟨Outcome.returned
          ({ info with Name := PlatformType.OpenShift, OCPVersion := di.Version }, none),
        calls ++ List.replicate
          (gs.countP (fun g => decide (g.Name = str "route.openshift.io")))
          Call.OpenAPISchema⟩ := by
  induction gs generalizing info calls with
  | nil => simp at hroute
  | cons g rest ih =>
    by_cases hg : g.Name = str "route.openshift.io"
    · rw [scanGroups_cons_v31 env d g rest info calls doc di hg (hsc calls) hdi hpre]
      by_cases hrest : ∃ x ∈ rest, x.Name = str "route.openshift.io"
      · rw [ih _ _ hrest]
        simp [List.countP_cons, hg, List.replicate_succ]
      · have hno : ∀ x ∈ rest, x.Name ≠ str "route.openshift.io" :=
          fun x hx hxn => hrest ⟨x, hx, hxn⟩
        rw [scanGroups_no_route env d rest _ _ hno]
        have hzero : rest.countP (fun g => decide (g.Name = str "route.openshift.io")) = 0 := by
          rw [List.countP_eq_zero]
          intro x hx
          simpa using hno x hx
        simp [List.countP_cons, hg, hzero]
    · rw [scanGroups_cons_other env d g rest info calls hg]
      have hrest := route_in_tail g rest hroute hg
      rw [ih info calls hrest]
      simp [List.countP_cons, hg]

/-- The scan when every schema answer starts with neither tag: one
OpenAPISchema call for each route group, and the OCP version untouched. -/
theorem scanGroups_all_skip (env : Env) (d : Discoverer) (gs : List APIGroup)
    (info : PlatformInfo) (calls : List Call)
    (hsc : ∀ h, ∃ doc di, d.OpenAPISchema h = (some doc, none) ∧ doc.Info = some di ∧
      4 ≤ di.Version.length ∧ di.Version.take 4 ≠ str "v3.1" ∧ di.Version.take 4 ≠ str "v1.1")
    (hroute : ∃ g ∈ gs, g.Name = str "route.openshift.io") :
    scanGroups env d gs info calls =
      ⟨Outcome.returned ({ info with Name := PlatformType.OpenShift }, none),
        calls ++ List.replicate
          (gs.countP (fun g => decide (g.Name = str "route.openshift.io")))
          Call.OpenAPISchema⟩ := by
  induction gs generalizing info calls with
  | nil => simp at hroute
  | cons g rest ih =>
    by_cases hg : g.Name = str "route.openshift.io"
    · obtain ⟨doc, di, hdoc, hdi, hlen, h31, h11⟩ := hsc calls
      rw [scanGroups_cons_skip env d g rest info calls doc di hg hdoc hdi hlen h31 h11]
      by_cases hrest : ∃ x ∈ rest, x.Name = str "route.openshift.io"
      · rw [ih _ _ hrest]
        simp [List.countP_cons, hg, List.replicate_succ]
      · have hno : ∀ x ∈ rest, x.Name ≠ str "route.openshift.io" :=
          fun x hx hxn => hrest ⟨x, hx, hxn⟩
        rw [scanGroups_no_route env d rest _ _ hno]
        have hzero : rest.countP (fun g => decide (g.Name = str "route.openshift.io")) = 0 := by
          rw [List.countP_eq_zero]
          intro x hx
          simpa using hno x hx
        simp [List.countP_cons, hg, hzero]
    · rw [scanGroups_cons_other env d g rest info calls hg]
      rw [ih info calls (route_in_tail g rest hroute hg)]
      simp [List.countP_cons, hg]

/-- The scan when every schema answer starts with `v1.1`, the GET answers a
body and the body unmarshals. -/
theorem scanGroups_all_v11_ok (env : Env) (d : Discoverer) (gs : List APIGroup)
    (info : PlatformInfo) (calls : List Call) (doc : Document) (di : DocumentInfo)
    (rc : RESTInterface) (body : List UInt8) (cvi : PlatformClusterInfo)
    (hsc : ∀ h, d.OpenAPISchema h = (some doc, none)) (hdi : doc.Info = some di)
    (hpre : di.Version.take 4 = str "v1.1")
    (hrc : ∀ h, d.RESTClient h = some rc)
    (hraw : ∀ h, rc.Raw ClusterVersionApiPath h = (body, none))
    (hjson : env.jsonUnmarshal body = (cvi, none))
    (hroute : ∃ g ∈ gs, g.Name = str "route.openshift.io") :
    (scanGroups env d gs info calls).outcome =
      Outcome.returned
        ({ info with Name := PlatformType.OpenShift, OCPVersion := cvi.Status.Desired.Version },
          none) := by
  induction gs generalizing info calls with
  | nil => simp at hroute
  | cons g rest ih =>
    by_cases hg : g.Name = str "route.openshift.io"
    · rw [scanGroups_cons_v11 env d g rest info calls doc di rc hg (hsc calls) hdi hpre (hrc _)]
      simp only [hraw, hjson]
      by_cases hrest : ∃ x ∈ rest, x.Name = str "route.openshift.io"
      · rw [ih _ _ hrest]
      · have hno : ∀ x ∈ rest, x.Name ≠ str "route.openshift.io" :=
          fun x hx hxn => hrest ⟨x, hx, hxn⟩
        rw [scanGroups_no_route env d rest _ _ hno]
    · rw [scanGroups_cons_other env d g rest info calls hg]
      exact ih info calls (route_in_tail g rest hroute hg)

/-- The scan when every schema answer starts with `v1.1` and the GET fails. -/
theorem scanGroups_v11_get_fails (env : Env) (d : Discoverer) (gs : List APIGroup)
    (info : PlatformInfo) (calls : List Call) (doc : Document) (di : DocumentInfo)
    (rc : RESTInterface) (body : List UInt8) (e : GoError)
    (hsc : ∀ h, d.OpenAPISchema h = (some doc, none)) (hdi : doc.Info = some di)
    (hpre : di.Version.take 4 = str "v1.1")
    (hrc : ∀ h, d.RESTClient h = some rc)
    (hraw : ∀ h, rc.Raw ClusterVersionApiPath h = (body, some e))
    (hroute : ∃ g ∈ gs, g.Name = str "route.openshift.io") :
    (scanGroups env d gs info calls).outcome =
      Outcome.returned
        ({ info with Name := PlatformType.OpenShift }, some GoError.ErrClusterVersionFetch) := by
  induction gs generalizing info calls with
  | nil => simp at hroute
  | cons g rest ih =>
    by_cases hg : g.Name = str "route.openshift.io"
    · rw [scanGroups_cons_v11 env d g rest info calls doc di rc hg (hsc calls) hdi hpre (hrc _)]
      simp only [hraw]
    · rw [scanGroups_cons_other env d g rest info calls hg]
      exact ih info calls (route_in_tail g rest hroute hg)

/-- The scan when every schema answer starts with `v1.1` and the body of the
GET does not unmarshal. -/
theorem scanGroups_v11_parse_fails (env : Env) (d : Discoverer) (gs : List APIGroup)
    (info : PlatformInfo) (calls : List Call) (doc : Document) (di : DocumentInfo)
    (rc : RESTInterface) (body : List UInt8) (cvi : PlatformClusterInfo) (e : GoError)
    (hsc : ∀ h, d.OpenAPISchema h = (some doc, none)) (hdi : doc.Info = some di)
    (hpre : di.Version.take 4 = str "v1.1")
    (hrc : ∀ h, d.RESTClient h = some rc)
    (hraw : ∀ h, rc.Raw ClusterVersionApiPath h = (body, none))
    (hjson : env.jsonUnmarshal body = (cvi, some e))
    (hroute : ∃ g ∈ gs, g.Name = str "route.openshift.io") :
    (scanGroups env d gs info calls).outcome =
      Outcome.returned
        ({ info with Name := PlatformType.OpenShift }, some GoError.ErrVersionMarshalling) := by
  induction gs generalizing info calls with
  | nil => simp at hroute
  | cons g rest ih =>
    by_cases hg : g.Name = str "route.openshift.io"
    · rw [scanGroups_cons_v11 env d g rest info calls doc di rc hg (hsc calls) hdi hpre (hrc _)]
      simp only [hraw, hjson]
    · rw [scanGroups_cons_other env d g rest info calls hg]
      exact ih info calls (route_in_tail g rest hroute hg)

/-- Every list of calls extends itself by nothing. -/
theorem calls_ext_refl (calls : List Call) :
    ∃ more, calls = calls ++ more ∧
      ∀ c ∈ more, c = Call.OpenAPISchema ∨ c = Call.RESTClient ∨
        c = Call.Get ClusterVersionApiPath :=
  ⟨[], by simp, by simp⟩

/-- An extension of a list of calls by one more allowed call is an extension
of the list itself. -/
theorem calls_ext_snoc (calls r : List Call) (c : Call)
    (hc : c = Call.OpenAPISchema ∨ c = Call.RESTClient ∨ c = Call.Get ClusterVersionApiPath)
    (h : ∃ more, r = (calls ++ [c]) ++ more ∧
      ∀ x ∈ more, x = Call.OpenAPISchema ∨ x = Call.RESTClient ∨
        x = Call.Get ClusterVersionApiPath) :
    ∃ more, r = calls ++ more ∧
      ∀ x ∈ more, x = Call.OpenAPISchema ∨ x = Call.RESTClient ∨
        x = Call.Get ClusterVersionApiPath := by
  obtain ⟨more, hr, hall⟩ := h
  refine ⟨c :: more, by simp [hr], ?_⟩
  intro x hx
  rcases List.mem_cons.1 hx with rfl | hx1
  · exact hc
  · exact hall x hx1

/-- The scan only appends calls, and each of them is OpenAPISchema,
RESTClient or a GET against `ClusterVersionApiPath`. -/
theorem scanGroups_calls (env : Env) (d : Discoverer) (gs : List APIGroup)
    (info : PlatformInfo) (calls : List Call) :
    ∃ more, (scanGroups env d gs info calls).calls = calls ++ more ∧
      ∀ c ∈ more, c = Call.OpenAPISchema ∨ c = Call.RESTClient ∨
        c = Call.Get ClusterVersionApiPath := by
  induction gs generalizing info calls with
  | nil => exact calls_ext_refl calls
  | cons g rest ih =>
    simp only [scanGroups]
    repeat' split
    all_goals first
      | exact ih _ _
      | exact calls_ext_snoc _ _ _ (by simp) (ih _ _)
      | exact calls_ext_snoc _ _ _ (by simp) (calls_ext_refl _)
      | exact calls_ext_snoc _ _ _ (by simp) (calls_ext_snoc _ _ _ (by simp) (calls_ext_refl _))
      | exact calls_ext_snoc _ _ _ (by simp) (calls_ext_snoc _ _ _ (by simp)
          (calls_ext_snoc _ _ _ (by simp) (calls_ext_refl _)))
      | exact calls_ext_snoc _ _ _ (by simp) (calls_ext_snoc _ _ _ (by simp)
          (calls_ext_snoc _ _ _ (by simp) (ih _ _)))

/-- The scan of a list holding the route group issues the GET when every
schema answer starts with `v1.1` and a REST client is handed out. -/
theorem scanGroups_v11_issues_get (env : Env) (d : Discoverer) (gs : List APIGroup)
    (info : PlatformInfo) (calls : List Call) (doc : Document) (di : DocumentInfo)
    (rc : RESTInterface)
    (hsc : ∀ h, d.OpenAPISchema h = (some doc, none)) (hdi : doc.Info = some di)
    (hpre : di.Version.take 4 = str "v1.1")
    (hrc : ∀ h, d.RESTClient h = some rc)
    (hroute : ∃ g ∈ gs, g.Name = str "route.openshift.io") :
    Call.Get ClusterVersionApiPath ∈ (scanGroups env d gs info calls).calls := by
  induction gs generalizing info calls with
  | nil => simp at hroute
  | cons g rest ih =>
    by_cases hg : g.Name = str "route.openshift.io"
    · rw [scanGroups_cons_v11 env d g rest info calls doc di rc hg (hsc calls) hdi hpre (hrc _)]
      split
      · simp
      · split
        · simp
        · obtain ⟨more, hm, _⟩ := scanGroups_calls env d rest
            { info with Name := PlatformType.OpenShift,
                        OCPVersion := (‹PlatformClusterInfo›).Status.Desired.Version }
            (calls ++ [Call.OpenAPISchema] ++ [Call.RESTClient] ++
              [Call.Get ClusterVersionApiPath])
          rw [hm]
          simp
    · rw [scanGroups_cons_other env d g rest info calls hg]
      exact ih info calls (route_in_tail g rest hroute hg)

/-- C3: when defaulting succeeds, ServerVersion answers (major, minor,
platform) and ServerGroups answers a list without a group named
`route.openshift.io`, GetPlatformInfo returns the descriptor
{Kubernetes, major.minor, platform, no OCP version} with a nil error, and the
only calls made are ServerVersion and ServerGroups: neither OpenAPISchema nor
the REST client is called. -/
theorem GetPlatformInfo_no_route_group (env : Env) (client : Option Discoverer)
    (cfg cfg1 : Option RestConfig) (d : Discoverer) (major minor os : GoString)
    (gl : APIGroupList)
    (hdef : DefaultArgs env client cfg = (some d, cfg1, none))
    (hsv : d.ServerVersion [] = (some ⟨major, minor, os⟩, none))
    (hsg : d.ServerGroups [Call.ServerVersion] = (some gl, none))
    (hno : ∀ g ∈ gl.Groups, g.Name ≠ str "route.openshift.io") :
    GetPlatformInfo env client cfg =
      ⟨Outcome.returned
          ({ Name := PlatformType.Kubernetes, K8SVersion := major ++ str "." ++ minor,
             OS := os, OCPVersion := [] }, none),
        [Call.ServerVersion, Call.ServerGroups]⟩ := by
  rw [GetPlatformInfo_eq_scan env client cfg cfg1 d _ gl hdef hsv hsg]
  exact scanGroups_no_route env d gl.Groups _ _ hno

/-- C9: when defaulting succeeds and ServerVersion fails, GetPlatformInfo
returns the descriptor {Kubernetes, all other fields empty} with
ErrK8SVersionFetch, and ServerVersion is the only call made, whatever the
other operations would answer. -/
theorem GetPlatformInfo_server_version_fails (env : Env) (client : Option Discoverer)
    (cfg cfg1 : Option RestConfig) (d : Discoverer) (e : GoError)
    (hdef : DefaultArgs env client cfg = (some d, cfg1, none))
    (hsv : (d.ServerVersion []).2 = some e) :
    GetPlatformInfo env client cfg =
      ⟨Outcome.returned
          ({ Name := PlatformType.Kubernetes, K8SVersion := [], OCPVersion := [], OS := [] },
            some GoError.ErrK8SVersionFetch),
        [Call.ServerVersion]⟩ := by
  rcases hp : d.ServerVersion [] with ⟨p, q⟩
  rw [hp] at hsv
  simp only at hsv
  subst hsv
  simp [GetPlatformInfo, hdef, hp]

/-- C10: when defaulting succeeds, ServerVersion answers (major, minor,
platform) and ServerGroups fails, GetPlatformInfo returns the descriptor
{Kubernetes, major.minor, platform, no OCP version} with
ErrServerGroupsFetch, and the only calls made are ServerVersion and
ServerGroups. -/
theorem GetPlatformInfo_server_groups_fails (env : Env) (client : Option Discoverer)
    (cfg cfg1 : Option RestConfig) (d : Discoverer) (major minor os : GoString) (e : GoError)
    (hdef : DefaultArgs env client cfg = (some d, cfg1, none))
    (hsv : d.ServerVersion [] = (some ⟨major, minor, os⟩, none))
    (hsg : (d.ServerGroups [Call.ServerVersion]).2 = some e) :
    GetPlatformInfo env client cfg =
      ⟨Outcome.returned
          ({ Name := PlatformType.Kubernetes, K8SVersion := major ++ str "." ++ minor,
             OS := os, OCPVersion := [] },
            some GoError.ErrServerGroupsFetch),
        [Call.ServerVersion, Call.ServerGroups]⟩ := by
  rcases hp : d.ServerGroups [Call.ServerVersion] with ⟨p, q⟩
  rw [hp] at hsg
  simp only at hsg
  subst hsg
  simp [GetPlatformInfo, hdef, hsv, hp]


/-- C1: with (info, err) what the versioner in use (the given one, or
K8SBasedPlatformVersioner for nil) returns from GetPlatformInfo(nil, cfg),
DetectOpenShift returns (true, nil) exactly when err is nil and the name is
OpenShift, (false, nil) when err is nil and the name is not OpenShift, and
(false, ErrInfoFetch) whenever err is not nil, whatever info is; this holds
for the DetectOpenShift of package platform and for the one of package
openshift. -/
theorem DetectOpenShift_collapses (env : Env) (pv : Option PlatformVersioner)
    (cfg : Option RestConfig) (info : PlatformInfo) (err : Option GoError)
    (hret : (pv.getD (K8SBasedPlatformVersioner env)).GetPlatformInfo none cfg =
      Outcome.returned (info, err)) :
    ((DetectOpenShift env pv cfg = Outcome.returned (true, none) ↔
        err = none ∧ info.Name = PlatformType.OpenShift) ∧
      (err = none → info.Name ≠ PlatformType.OpenShift →
        DetectOpenShift env pv cfg = Outcome.returned (false, none)) ∧
      (err ≠ none →
        DetectOpenShift env pv cfg = Outcome.returned (false, some GoError.ErrInfoFetch))) ∧
    ((openshift.DetectOpenShift env pv cfg = Outcome.returned (true, none) ↔
        err = none ∧ info.Name = PlatformType.OpenShift) ∧
      (err = none → info.Name ≠ PlatformType.OpenShift →
        openshift.DetectOpenShift env pv cfg = Outcome.returned (false, none)) ∧
      (err ≠ none →
        openshift.DetectOpenShift env pv cfg =
          Outcome.returned (false, some GoError.ErrInfoFetch))) := by
  have hsame : openshift.DetectOpenShift env pv cfg = DetectOpenShift env pv cfg := rfl
  rw [hsame]
  have hval : DetectOpenShift env pv cfg =
      match err with
      | some _ => Outcome.returned (false, some GoError.ErrInfoFetch)
      | none => Outcome.returned (decide (info.Name = PlatformType.OpenShift), none) := by
    cases pv with
    | none =>
      simp only [Option.getD] at hret
      simp only [DetectOpenShift, hret]
      cases err <;> rfl
    | some v =>
      simp only [Option.getD] at hret
      simp only [DetectOpenShift, hret]
      cases err <;> rfl
  have hmain : (DetectOpenShift env pv cfg = Outcome.returned (true, none) ↔
        err = none ∧ info.Name = PlatformType.OpenShift) ∧
      (err = none → info.Name ≠ PlatformType.OpenShift →
        DetectOpenShift env pv cfg = Outcome.returned (false, none)) ∧
      (err ≠ none →
        DetectOpenShift env pv cfg = Outcome.returned (false, some GoError.ErrInfoFetch)) := by
    rw [hval]
    cases err with
    | none => simp
    | some e => simp
  exact ⟨hmain, hmain⟩

/-- C1 at the third case of TestDetectOpenShift: the fake versioner returns
the OpenShift descriptor together with an error. -/
theorem DetectOpenShift_collapses_witness :
    (FakePlatformVersioner.versioner ⟨ocpInfo, some (GoError.foreign (str "uh oh"))⟩).GetPlatformInfo
        none none = Outcome.returned (ocpInfo, some (GoError.foreign (str "uh oh"))) ∧
    DetectOpenShift sampleEnv
        (some (FakePlatformVersioner.versioner ⟨ocpInfo, some (GoError.foreign (str "uh oh"))⟩))
        none = Outcome.returned (false, some GoError.ErrInfoFetch) :=
  ⟨rfl,
    (DetectOpenShift_collapses sampleEnv
      (some (FakePlatformVersioner.versioner ⟨ocpInfo, some (GoError.foreign (str "uh oh"))⟩))
      none ocpInfo (some (GoError.foreign (str "uh oh"))) rfl).1.2.2 (by simp)⟩

/-- C2: when defaulting, ServerVersion and ServerGroups succeed, every
descriptor that GetPlatformInfo returns, with a nil error or with the error
of a later step, has the name OpenShift exactly when the group list holds a
group named `route.openshift.io` and the name Kubernetes exactly when it
holds none; and a run that ends in a panic instead of returning had such a
group in its list. -/
theorem GetPlatformInfo_name_iff_route (env : Env) (client : Option Discoverer)
    (cfg cfg1 : Option RestConfig) (d : Discoverer) (vi : VersionInfo) (gl : APIGroupList)
    (hdef : DefaultArgs env client cfg = (some d, cfg1, none))
    (hsv : d.ServerVersion [] = (some vi, none))
    (hsg : d.ServerGroups [Call.ServerVersion] = (some gl, none)) :
    (∀ info err, (GetPlatformInfo env client cfg).outcome = Outcome.returned (info, err) →
      (info.Name = PlatformType.OpenShift ↔
        ∃ g ∈ gl.Groups, g.Name = str "route.openshift.io") ∧
      (info.Name = PlatformType.Kubernetes ↔
        ¬ ∃ g ∈ gl.Groups, g.Name = str "route.openshift.io")) ∧
    (∀ p, (GetPlatformInfo env client cfg).outcome = Outcome.panicked p →
      ∃ g ∈ gl.Groups, g.Name = str "route.openshift.io") := by
  rw [GetPlatformInfo_eq_scan env client cfg cfg1 d vi gl hdef hsv hsg]
  by_cases hroute : ∃ g ∈ gl.Groups, g.Name = str "route.openshift.io"
  · refine ⟨fun info err hret => ?_, fun _ _ => hroute⟩
    have hname := scanGroups_name_of_route env d gl.Groups _ _ hroute info err hret
    simp [hname, hroute]
  · have hno : ∀ x ∈ gl.Groups, x.Name ≠ str "route.openshift.io" :=
      fun x hx hxn => hroute ⟨x, hx, hxn⟩
    rw [scanGroups_no_route env d gl.Groups _ _ hno]
    refine ⟨fun info err hret => ?_, fun p hp => ?_⟩
    · simp only [Outcome.returned.injEq, Prod.mk.injEq] at hret
      rw [← hret.1]
      simp [hroute]
    · simp at hp

/-- C2 at case 4 of the test table: the route group is listed and the schema
fetch fails, so the descriptor that comes back with the error is named
OpenShift. -/
theorem GetPlatformInfo_name_iff_route_witness :
    (GetPlatformInfo sampleEnv (some fakeCase4.discoverer) none).outcome =
      Outcome.returned
        ({ Name := PlatformType.OpenShift, OCPVersion := [], K8SVersion := str "1.2",
           OS := str "linux/amd64" }, some GoError.ErrOpenAPISchemaFetch) ∧
    ((PlatformType.OpenShift = PlatformType.OpenShift ↔
        ∃ g ∈ [routeGroup], g.Name = str "route.openshift.io") ∧
      (PlatformType.OpenShift = PlatformType.Kubernetes ↔
        ¬ ∃ g ∈ [routeGroup], g.Name = str "route.openshift.io")) :=
  ⟨by decide,
    (GetPlatformInfo_name_iff_route sampleEnv (some fakeCase4.discoverer) none
      (some ⟨str "https://cluster"⟩) fakeCase4.discoverer sampleVersion ⟨[routeGroup]⟩
      rfl rfl rfl).1
      { Name := PlatformType.OpenShift, OCPVersion := [], K8SVersion := str "1.2",
        OS := str "linux/amd64" }
      (some GoError.ErrOpenAPISchemaFetch) (by decide)⟩


/-- C3 at case 3 of the test table: an empty group list. -/
theorem GetPlatformInfo_no_route_group_witness :
    (∀ g ∈ ([] : List APIGroup), g.Name ≠ str "route.openshift.io") ∧
    GetPlatformInfo sampleEnv (some (sampleFake [] none none).discoverer) none =
      ⟨Outcome.returned
          ({ Name := PlatformType.Kubernetes, K8SVersion := str "1" ++ str "." ++ str "2",
             OS := str "linux/amd64", OCPVersion := [] }, none),
        [Call.ServerVersion, Call.ServerGroups]⟩ :=
  ⟨by simp,
    GetPlatformInfo_no_route_group sampleEnv (some (sampleFake [] none none).discoverer) none
      (some ⟨str "https://cluster"⟩) (sampleFake [] none none).discoverer
      (str "1") (str "2") (str "linux/amd64") ⟨[]⟩ rfl rfl rfl (by simp)⟩

/-- C9 at case 1 of the test table. -/
theorem GetPlatformInfo_server_version_fails_witness :
    (fakeCase1.discoverer.ServerVersion []).2 = some (GoError.foreign (str "oops")) ∧
    GetPlatformInfo sampleEnv (some fakeCase1.discoverer) none =
      ⟨Outcome.returned
          ({ Name := PlatformType.Kubernetes, K8SVersion := [], OCPVersion := [], OS := [] },
            some GoError.ErrK8SVersionFetch),
        [Call.ServerVersion]⟩ :=
  ⟨rfl,
    GetPlatformInfo_server_version_fails sampleEnv (some fakeCase1.discoverer) none
      (some ⟨str "https://cluster"⟩) fakeCase1.discoverer (GoError.foreign (str "oops"))
      rfl rfl⟩

/-- C10 at case 2 of the test table. -/
theorem GetPlatformInfo_server_groups_fails_witness :
    (fakeCase2.discoverer.ServerGroups [Call.ServerVersion]).2 =
      some (GoError.foreign (str "oops")) ∧
    GetPlatformInfo sampleEnv (some fakeCase2.discoverer) none =
      ⟨Outcome.returned
          ({ Name := PlatformType.Kubernetes, K8SVersion := str "1" ++ str "." ++ str "2",
             OS := str "linux/amd64", OCPVersion := [] },
            some GoError.ErrServerGroupsFetch),
        [Call.ServerVersion, Call.ServerGroups]⟩ :=
  ⟨rfl,
    GetPlatformInfo_server_groups_fails sampleEnv (some fakeCase2.discoverer) none
      (some ⟨str "https://cluster"⟩) fakeCase2.discoverer
      (str "1") (str "2") (str "linux/amd64") (GoError.foreign (str "oops")) rfl rfl rfl⟩

/-- C4: when defaulting succeeds, ServerVersion answers (major, minor,
platform), the group list holds a group named `route.openshift.io` and every
OpenAPISchema call answers a document whose version starts with the four
bytes `v3.1`, GetPlatformInfo returns {OpenShift, major.minor, platform, the
whole schema version} with a nil error, and neither RESTClient nor a GET is
among the calls made. -/
theorem GetPlatformInfo_schema_v31 (env : Env) (client : Option Discoverer)
    (cfg cfg1 : Option RestConfig) (d : Discoverer) (major minor os : GoString)
    (gl : APIGroupList) (doc : Document) (di : DocumentInfo)
    (hdef : DefaultArgs env client cfg = (some d, cfg1, none))
    (hsv : d.ServerVersion [] = (some ⟨major, minor, os⟩, none))
    (hsg : d.ServerGroups [Call.ServerVersion] = (some gl, none))
    (hroute : ∃ g ∈ gl.Groups, g.Name = str "route.openshift.io")
    (hsc : ∀ h, d.OpenAPISchema h = (some doc, none)) (hdi : doc.Info = some di)
    (hpre : di.Version.take 4 = str "v3.1") :
    (GetPlatformInfo env client cfg).outcome =
      Outcome.returned
        ({ Name := PlatformType.OpenShift, K8SVersion := major ++ str "." ++ minor,
           OS := os, OCPVersion := di.Version }, none) ∧
    Call.RESTClient ∉ (GetPlatformInfo env client cfg).calls ∧
    ∀ p, Call.Get p ∉ (GetPlatformInfo env client cfg).calls := by
  rw [GetPlatformInfo_eq_scan env client cfg cfg1 d _ gl hdef hsv hsg,
    scanGroups_all_v31 env d gl.Groups _ _ doc di hsc hdi hpre hroute]
  refine ⟨rfl, ?_, ?_⟩
  · simp [List.mem_replicate]
  · intro p
    simp [List.mem_replicate]

/-- C4 at case 5 of the test table: schema version `v3.11.42`. -/
theorem GetPlatformInfo_schema_v31_witness :
    (str "v3.11.42").take 4 = str "v3.1" ∧
    (GetPlatformInfo sampleEnv
        (some (sampleFake [routeGroup] (some ⟨some ⟨str "v3.11.42"⟩⟩) none).discoverer)
        none).outcome =
      Outcome.returned
        ({ Name := PlatformType.OpenShift, K8SVersion := str "1" ++ str "." ++ str "2",
           OS := str "linux/amd64", OCPVersion := str "v3.11.42" }, none) :=
  ⟨by decide,
    (GetPlatformInfo_schema_v31 sampleEnv
      (some (sampleFake [routeGroup] (some ⟨some ⟨str "v3.11.42"⟩⟩) none).discoverer) none
      (some ⟨str "https://cluster"⟩)
      (sampleFake [routeGroup] (some ⟨some ⟨str "v3.11.42"⟩⟩) none).discoverer
      (str "1") (str "2") (str "linux/amd64") ⟨[routeGroup]⟩ ⟨some ⟨str "v3.11.42"⟩⟩
      ⟨str "v3.11.42"⟩ rfl rfl rfl ⟨routeGroup, List.mem_singleton.2 rfl, rfl⟩
      (fun _ => rfl) rfl (by decide)).1⟩

/-- C7: when defaulting, ServerVersion and ServerGroups succeed, the group
list holds a group named `route.openshift.io` and every OpenAPISchema call
answers a document whose version has at least four bytes, the first four
being neither `v3.1` nor `v1.1`, GetPlatformInfo returns a nil error and the
descriptor {OpenShift, major.minor, platform, empty OCP version}, and neither
RESTClient nor a GET is among the calls made. -/
theorem GetPlatformInfo_schema_other (env : Env) (client : Option Discoverer)
    (cfg cfg1 : Option RestConfig) (d : Discoverer) (major minor os : GoString)
    (gl : APIGroupList)
    (hdef : DefaultArgs env client cfg = (some d, cfg1, none))
    (hsv : d.ServerVersion [] = (some ⟨major, minor, os⟩, none))
    (hsg : d.ServerGroups [Call.ServerVersion] = (some gl, none))
    (hroute : ∃ g ∈ gl.Groups, g.Name = str "route.openshift.io")
    (hsc : ∀ h, ∃ doc di, d.OpenAPISchema h = (some doc, none) ∧ doc.Info = some di ∧
      4 ≤ di.Version.length ∧ di.Version.take 4 ≠ str "v3.1" ∧
      di.Version.take 4 ≠ str "v1.1") :
    (GetPlatformInfo env client cfg).outcome =
      Outcome.returned
        ({ Name := PlatformType.OpenShift, K8SVersion := major ++ str "." ++ minor,
           OS := os, OCPVersion := [] }, none) ∧
    Call.RESTClient ∉ (GetPlatformInfo env client cfg).calls ∧
    ∀ p, Call.Get p ∉ (GetPlatformInfo env client cfg).calls := by
  rw [GetPlatformInfo_eq_scan env client cfg cfg1 d _ gl hdef hsv hsg,
    scanGroups_all_skip env d gl.Groups _ _ hsc hroute]
  refine ⟨rfl, ?_, ?_⟩
  · simp [List.mem_replicate]
  · intro p
    simp [List.mem_replicate]

/-- C7 at the schema version `v3.2.0`, with the route group listed twice. -/
theorem GetPlatformInfo_schema_other_witness :
    (4 ≤ (str "v3.2.0").length ∧ (str "v3.2.0").take 4 ≠ str "v3.1" ∧
      (str "v3.2.0").take 4 ≠ str "v1.1") ∧
    (GetPlatformInfo sampleEnv
        (some (sampleFake [routeGroup, routeGroup]
          (some ⟨some ⟨str "v3.2.0"⟩⟩) (some okClient)).discoverer)
        none).outcome =
      Outcome.returned
        ({ Name := PlatformType.OpenShift, K8SVersion := str "1" ++ str "." ++ str "2",
           OS := str "linux/amd64", OCPVersion := [] }, none) :=
  ⟨by decide,
    (GetPlatformInfo_schema_other sampleEnv
      (some (sampleFake [routeGroup, routeGroup]
        (some ⟨some ⟨str "v3.2.0"⟩⟩) (some okClient)).discoverer) none
      (some ⟨str "https://cluster"⟩)
      (sampleFake [routeGroup, routeGroup]
        (some ⟨some ⟨str "v3.2.0"⟩⟩) (some okClient)).discoverer
      (str "1") (str "2") (str "linux/amd64") ⟨[routeGroup, routeGroup]⟩ rfl rfl rfl
      ⟨routeGroup, List.mem_cons_self _ _, rfl⟩
      (fun _ => ⟨⟨some ⟨str "v3.2.0"⟩⟩, ⟨str "v3.2.0"⟩, rfl, rfl, by decide⟩)).1⟩

/-- C8: the fake discoverer of the tests with the route group listed and the
schema version `v3` makes GetPlatformInfo panic at `doc.Info.Version[:4]`
(slice bounds out of range) instead of returning a descriptor and an error;
the empty version does the same. -/
theorem GetPlatformInfo_short_version_panics :
    GetPlatformInfo sampleEnv
        (some (sampleFake [routeGroup] (some ⟨some ⟨str "v3"⟩⟩) none).discoverer) none =
      ⟨Outcome.panicked Panic.sliceOutOfRange,
        [Call.ServerVersion, Call.ServerGroups, Call.OpenAPISchema]⟩ ∧
    GetPlatformInfo sampleEnv
        (some (sampleFake [routeGroup] (some ⟨some ⟨[]⟩⟩) none).discoverer) none =
      ⟨Outcome.panicked Panic.sliceOutOfRange,
        [Call.ServerVersion, Call.ServerGroups, Call.OpenAPISchema]⟩ := by
  decide


/-- C5: when defaulting, ServerVersion and ServerGroups succeed, the group
list holds a group named `route.openshift.io`, every OpenAPISchema call
answers a document whose version starts with the four bytes `v1.1`, and the
discoverer hands out a REST client, GetPlatformInfo issues a GET, every GET
it issues is against the absolute path
`apis/config.openshift.io/v1/clusterversions/version`, and when that GET
answers a body that unmarshals to a payload, the call returns a nil error and
the descriptor {OpenShift, major.minor, platform} whose OCP version is the
payload's status.desired.version. -/
theorem GetPlatformInfo_schema_v11_fallback (env : Env) (client : Option Discoverer)
    (cfg cfg1 : Option RestConfig) (d : Discoverer) (major minor os : GoString)
    (gl : APIGroupList) (doc : Document) (di : DocumentInfo) (rc : RESTInterface)
    (hdef : DefaultArgs env client cfg = (some d, cfg1, none))
    (hsv : d.ServerVersion [] = (some ⟨major, minor, os⟩, none))
    (hsg : d.ServerGroups [Call.ServerVersion] = (some gl, none))
    (hroute : ∃ g ∈ gl.Groups, g.Name = str "route.openshift.io")
    (hsc : ∀ h, d.OpenAPISchema h = (some doc, none)) (hdi : doc.Info = some di)
    (hpre : di.Version.take 4 = str "v1.1")
    (hrc : ∀ h, d.RESTClient h = some rc) :
    Call.Get (str "apis/config.openshift.io/v1/clusterversions/version") ∈
      (GetPlatformInfo env client cfg).calls ∧
    (∀ p, Call.Get p ∈ (GetPlatformInfo env client cfg).calls →
      p = str "apis/config.openshift.io/v1/clusterversions/version") ∧
    (∀ body cvi,
      (∀ h, rc.Raw (str "apis/config.openshift.io/v1/clusterversions/version") h =
        (body, none)) →
      env.jsonUnmarshal body = (cvi, none) →
      (GetPlatformInfo env client cfg).outcome =
        Outcome.returned
          ({ Name := PlatformType.OpenShift, K8SVersion := major ++ str "." ++ minor,
             OS := os, OCPVersion := cvi.Status.Desired.Version }, none)) := by
  rw [GetPlatformInfo_eq_scan env client cfg cfg1 d _ gl hdef hsv hsg]
  refine ⟨?_, ?_, ?_⟩
  · exact scanGroups_v11_issues_get env d gl.Groups _ _ doc di rc hsc hdi hpre hrc hroute
  · intro p hp
    obtain ⟨more, hm, hall⟩ := scanGroups_calls env d gl.Groups
      { Name := PlatformType.Kubernetes, OCPVersion := [],
        K8SVersion := major ++ str "." ++ minor, OS := os }
      [Call.ServerVersion, Call.ServerGroups]
    rw [hm] at hp
    rcases List.mem_append.1 hp with h1 | h2
    · simp at h1
    · rcases hall _ h2 with h | h | h
      · cases h
      · cases h
      · cases h
        rfl
  · intro body cvi hraw hjson
    exact scanGroups_all_v11_ok env d gl.Groups _ _ doc di rc body cvi hsc hdi hpre hrc hraw
      hjson hroute

/-- C5 at the schema version `v1.11.0` and a REST client answering a
payload whose desired version is `4.1.0`. -/
theorem GetPlatformInfo_schema_v11_fallback_witness :
    (str "v1.11.0").take 4 = str "v1.1" ∧
    sampleEnv.jsonUnmarshal (str "payload") = (⟨⟨⟨str "4.1.0"⟩⟩⟩, none) ∧
    (GetPlatformInfo sampleEnv
        (some (sampleFake [routeGroup] (some ⟨some ⟨str "v1.11.0"⟩⟩)
          (some okClient)).discoverer) none).outcome =
      Outcome.returned
        ({ Name := PlatformType.OpenShift, K8SVersion := str "1" ++ str "." ++ str "2",
           OS := str "linux/amd64", OCPVersion := str "4.1.0" }, none) :=
  ⟨by decide, by decide,
    (GetPlatformInfo_schema_v11_fallback sampleEnv
      (some (sampleFake [routeGroup] (some ⟨some ⟨str "v1.11.0"⟩⟩)
        (some okClient)).discoverer) none
      (some ⟨str "https://cluster"⟩)
      (sampleFake [routeGroup] (some ⟨some ⟨str "v1.11.0"⟩⟩) (some okClient)).discoverer
      (str "1") (str "2") (str "linux/amd64") ⟨[routeGroup]⟩ ⟨some ⟨str "v1.11.0"⟩⟩
      ⟨str "v1.11.0"⟩ okClient rfl rfl rfl ⟨routeGroup, List.mem_singleton.2 rfl, rfl⟩
      (fun _ => rfl) rfl (by decide) (fun _ => rfl)).2.2
      (str "payload") ⟨⟨⟨str "4.1.0"⟩⟩⟩ (fun _ => rfl) (by decide)⟩

/-- C6: in the `v1.1` branch (defaulting, ServerVersion and ServerGroups
succeed, the route group is listed, every OpenAPISchema call answers a
document whose version starts with `v1.1`, the discoverer hands out a REST
client), a failing GET makes GetPlatformInfo return ErrClusterVersionFetch,
and a GET whose body does not unmarshal makes it return
ErrVersionMarshalling; both times the descriptor is {OpenShift, major.minor,
platform, empty OCP version}. -/
theorem GetPlatformInfo_schema_v11_failures (env : Env) (client : Option Discoverer)
    (cfg cfg1 : Option RestConfig) (d : Discoverer) (major minor os : GoString)
    (gl : APIGroupList) (doc : Document) (di : DocumentInfo) (rc : RESTInterface)
    (hdef : DefaultArgs env client cfg = (some d, cfg1, none))
    (hsv : d.ServerVersion [] = (some ⟨major, minor, os⟩, none))
    (hsg : d.ServerGroups [Call.ServerVersion] = (some gl, none))
    (hroute : ∃ g ∈ gl.Groups, g.Name = str "route.openshift.io")
    (hsc : ∀ h, d.OpenAPISchema h = (some doc, none)) (hdi : doc.Info = some di)
    (hpre : di.Version.take 4 = str "v1.1")
    (hrc : ∀ h, d.RESTClient h = some rc) :
    (∀ body e, (∀ h, rc.Raw ClusterVersionApiPath h = (body, some e)) →
      (GetPlatformInfo env client cfg).outcome =
        Outcome.returned
          ({ Name := PlatformType.OpenShift, K8SVersion := major ++ str "." ++ minor,
             OS := os, OCPVersion := [] }, some GoError.ErrClusterVersionFetch)) ∧
    (∀ body cvi e, (∀ h, rc.Raw ClusterVersionApiPath h = (body, none)) →
      env.jsonUnmarshal body = (cvi, some e) →
      (GetPlatformInfo env client cfg).outcome =
        Outcome.returned
          ({ Name := PlatformType.OpenShift, K8SVersion := major ++ str "." ++ minor,
             OS := os, OCPVersion := [] }, some GoError.ErrVersionMarshalling)) := by
  rw [GetPlatformInfo_eq_scan env client cfg cfg1 d _ gl hdef hsv hsg]
  refine ⟨?_, ?_⟩
  · intro body e hraw
    exact scanGroups_v11_get_fails env d gl.Groups _ _ doc di rc body e hsc hdi hpre hrc hraw
      hroute
  · intro body cvi e hraw hjson
    exact scanGroups_v11_parse_fails env d gl.Groups _ _ doc di rc body cvi e hsc hdi hpre hrc
      hraw hjson hroute

/-- C6 at the schema version `v1.11.0`: once with a REST client whose GET
fails, once with one whose body is no payload. -/
theorem GetPlatformInfo_schema_v11_failures_witness :
    (GetPlatformInfo sampleEnv
        (some (sampleFake [routeGroup] (some ⟨some ⟨str "v1.11.0"⟩⟩)
          (some failingClient)).discoverer) none).outcome =
      Outcome.returned
        ({ Name := PlatformType.OpenShift, K8SVersion := str "1" ++ str "." ++ str "2",
           OS := str "linux/amd64", OCPVersion := [] },
          some GoError.ErrClusterVersionFetch) ∧
    (GetPlatformInfo sampleEnv
        (some (sampleFake [routeGroup] (some ⟨some ⟨str "v1.11.0"⟩⟩)
          (some garbageClient)).discoverer) none).outcome =
      Outcome.returned
        ({ Name := PlatformType.OpenShift, K8SVersion := str "1" ++ str "." ++ str "2",
           OS := str "linux/amd64", OCPVersion := [] },
          some GoError.ErrVersionMarshalling) :=
  ⟨(GetPlatformInfo_schema_v11_failures sampleEnv
      (some (sampleFake [routeGroup] (some ⟨some ⟨str "v1.11.0"⟩⟩)
        (some failingClient)).discoverer) none
      (some ⟨str "https://cluster"⟩)
      (sampleFake [routeGroup] (some ⟨some ⟨str "v1.11.0"⟩⟩) (some failingClient)).discoverer
      (str "1") (str "2") (str "linux/amd64") ⟨[routeGroup]⟩ ⟨some ⟨str "v1.11.0"⟩⟩
      ⟨str "v1.11.0"⟩ failingClient rfl rfl rfl ⟨routeGroup, List.mem_singleton.2 rfl, rfl⟩
      (fun _ => rfl) rfl (by decide) (fun _ => rfl)).1
      [] (GoError.foreign (str "timeout")) (fun _ => rfl),
    (GetPlatformInfo_schema_v11_failures sampleEnv
      (some (sampleFake [routeGroup] (some ⟨some ⟨str "v1.11.0"⟩⟩)
        (some garbageClient)).discoverer) none
      (some ⟨str "https://cluster"⟩)
      (sampleFake [routeGroup] (some ⟨some ⟨str "v1.11.0"⟩⟩) (some garbageClient)).discoverer
      (str "1") (str "2") (str "linux/amd64") ⟨[routeGroup]⟩ ⟨some ⟨str "v1.11.0"⟩⟩
      ⟨str "v1.11.0"⟩ garbageClient rfl rfl rfl ⟨routeGroup, List.mem_singleton.2 rfl, rfl⟩
      (fun _ => rfl) rfl (by decide) (fun _ => rfl)).2
      (str "<html>") ⟨⟨⟨[]⟩⟩⟩ (GoError.foreign (str "bad json")) (fun _ => rfl) (by decide)⟩


/-- One loop round on the route group is `routeRound`: its run when it stops,
the scan of the remaining groups when it goes on. -/
theorem scanGroups_cons_route (env : Env) (d : Discoverer) (g : APIGroup)
    (rest : List APIGroup) (info : PlatformInfo) (calls : List Call)
    (hg : g.Name = str "route.openshift.io") :
    scanGroups env d (g :: rest) info calls =
      match routeRound env d info calls with
      | Round.stop o c => ⟨o, c⟩
      | Round.next i c => scanGroups env d rest i c := by
  simp only [scanGroups, routeRound, if_pos hg]
  repeat' split
  all_goals first
    | rfl
    | simp_all

/-- A round whose schema fetch fails stops with ErrOpenAPISchemaFetch. -/
theorem routeRound_schema_fails (env : Env) (d : Discoverer) (info : PlatformInfo)
    (calls : List Call) (e : GoError) (hsc : (d.OpenAPISchema calls).2 = some e) :
    routeRound env d info calls =
      Round.stop
        (Outcome.returned
          ({ info with Name := PlatformType.OpenShift }, some GoError.ErrOpenAPISchemaFetch))
        (calls ++ [Call.OpenAPISchema]) := by
  rcases hp : d.OpenAPISchema calls with ⟨p, q⟩
  rw [hp] at hsc
  simp only at hsc
  subst hsc
  simp only [routeRound, hp]

/-- The scan of a list holding the route group, when the schema fetch made
from the calls at hand fails. -/
theorem scanGroups_schema_fails (env : Env) (d : Discoverer) (gs : List APIGroup)
    (info : PlatformInfo) (calls : List Call) (e : GoError)
    (hsc : (d.OpenAPISchema calls).2 = some e)
    (hroute : ∃ g ∈ gs, g.Name = str "route.openshift.io") :
    scanGroups env d gs info calls =
      ⟨Outcome.returned
          ({ info with Name := PlatformType.OpenShift }, some GoError.ErrOpenAPISchemaFetch),
        calls ++ [Call.OpenAPISchema]⟩ := by
  induction gs with
  | nil => simp at hroute
  | cons g rest ih =>
    by_cases hg : g.Name = str "route.openshift.io"
    · rw [scanGroups_cons_route env d g rest info calls hg,
        routeRound_schema_fails env d info calls e hsc]
    · rw [scanGroups_cons_other env d g rest info calls hg]
      exact ih (route_in_tail g rest hroute hg)


/-- With a discoverer supplied, defaulting either fails on the configuration
or hands the discoverer back; which of the two does not depend on the
discoverer. -/
theorem DefaultArgs_supplied (env : Env) (cfg : Option RestConfig) :
    (∀ d, DefaultArgs env (some d) cfg = (none, none, some GoError.ErrRestConfigFetch)) ∨
    (∃ c, ∀ d, DefaultArgs env (some d) cfg = (some d, c, none)) := by
  cases cfg with
  | some c => exact Or.inr ⟨some c, fun d => rfl⟩
  | none =>
    rcases hg : env.GetConfig with ⟨c, e⟩
    cases e with
    | none => exact Or.inr ⟨c, fun d => by simp [DefaultArgs, hg]⟩
    | some e => exact Or.inl (fun d => by simp [DefaultArgs, hg])

/-- A run whose defaulting fails returns at once. -/
theorem GetPlatformInfo_defaulting_fails (env : Env) (client : Option Discoverer)
    (cfg : Option RestConfig) (e : GoError) (hdef : (DefaultArgs env client cfg).2.2 = some e) :
    GetPlatformInfo env client cfg =
      ⟨Outcome.returned
          ({ Name := PlatformType.Kubernetes, OCPVersion := [], K8SVersion := [], OS := [] },
            some GoError.ErrDefaultingArgs), []⟩ := by
  rcases hp : DefaultArgs env client cfg with ⟨p, q, r⟩
  rw [hp] at hdef
  simp only at hdef
  subst hdef
  simp [GetPlatformInfo, hp]

/-- The calls of one round: the calls at hand, then OpenAPISchema, RESTClient
and the GET, or a start of these three. -/
theorem routeRound_calls (env : Env) (d : Discoverer) (info : PlatformInfo)
    (calls : List Call) :
    ∃ more, (routeRound env d info calls).calls = calls ++ more ∧
      more <+: [Call.OpenAPISchema, Call.RESTClient, Call.Get ClusterVersionApiPath] := by
  simp only [routeRound]
  repeat' split
  all_goals
    simp only [Round.calls, List.append_assoc]
    exact ⟨_, rfl, by decide⟩

/-- The calls of a scan of a list that holds the route group at most once. -/
theorem scanGroups_calls_once (env : Env) (d : Discoverer) (gs : List APIGroup)
    (info : PlatformInfo) (calls : List Call)
    (hcount : gs.countP (fun g => decide (g.Name = str "route.openshift.io")) ≤ 1) :
    ∃ more, (scanGroups env d gs info calls).calls = calls ++ more ∧
      more <+: [Call.OpenAPISchema, Call.RESTClient, Call.Get ClusterVersionApiPath] := by
  induction gs with
  | nil => exact ⟨[], by simp [scanGroups], by simp⟩
  | cons g rest ih =>
    by_cases hg : g.Name = str "route.openshift.io"
    · have hzero : rest.countP (fun g => decide (g.Name = str "route.openshift.io")) = 0 := by
        simp [List.countP_cons, hg] at hcount
        simpa using hcount
      have hno : ∀ x ∈ rest, x.Name ≠ str "route.openshift.io" := by
        intro x hx
        have := (List.countP_eq_zero.1 hzero) x hx
        simpa using this
      obtain ⟨more, hm, hpre⟩ := routeRound_calls env d info calls
      refine ⟨more, ?_, hpre⟩
      rw [scanGroups_cons_route env d g rest info calls hg]
      cases hr : routeRound env d info calls with
      | stop o c =>
        rw [hr] at hm
        exact hm
      | next i c =>
        rw [hr] at hm
        simp only [scanGroups_no_route env d rest i c hno]
        exact hm
    · rw [scanGroups_cons_other env d g rest info calls hg]
      apply ih
      simpa [List.countP_cons, hg] using hcount

/-- C11: when defaulting succeeds, ServerVersion answers (major, minor,
platform), ServerGroups answers a list holding a group named
`route.openshift.io` at any place, and the OpenAPISchema call fails,
GetPlatformInfo returns ErrOpenAPISchemaFetch with the descriptor
{OpenShift, major.minor, platform, empty OCP version}, and the calls made are
ServerVersion, ServerGroups, OpenAPISchema: no RESTClient, no GET. -/
theorem GetPlatformInfo_schema_fails (env : Env) (client : Option Discoverer)
    (cfg cfg1 : Option RestConfig) (d : Discoverer) (major minor os : GoString)
    (gl : APIGroupList) (e : GoError)
    (hdef : DefaultArgs env client cfg = (some d, cfg1, none))
    (hsv : d.ServerVersion [] = (some ⟨major, minor, os⟩, none))
    (hsg : d.ServerGroups [Call.ServerVersion] = (some gl, none))
    (hroute : ∃ g ∈ gl.Groups, g.Name = str "route.openshift.io")
    (hsc : (d.OpenAPISchema [Call.ServerVersion, Call.ServerGroups]).2 = some e) :
    GetPlatformInfo env client cfg =
      ⟨Outcome.returned
          ({ Name := PlatformType.OpenShift, K8SVersion := major ++ str "." ++ minor,
             OS := os, OCPVersion := [] }, some GoError.ErrOpenAPISchemaFetch),
        [Call.ServerVersion, Call.ServerGroups, Call.OpenAPISchema]⟩ := by
  rw [GetPlatformInfo_eq_scan env client cfg cfg1 d _ gl hdef hsv hsg,
    scanGroups_schema_fails env d gl.Groups _ _ e hsc hroute]
  rfl

/-- C11 at case 4 of the test table, with an unrelated group listed before
the route group. -/
theorem GetPlatformInfo_schema_fails_witness :
    (∃ g ∈ [(⟨str "apps"⟩ : APIGroup), routeGroup], g.Name = str "route.openshift.io") ∧
    GetPlatformInfo sampleEnv
        (some ({ fakeCase4 with
          groupList := some ⟨[⟨str "apps"⟩, routeGroup]⟩ } : FakeDiscoverer).discoverer)
        none =
      ⟨Outcome.returned
          ({ Name := PlatformType.OpenShift, K8SVersion := str "1" ++ str "." ++ str "2",
             OS := str "linux/amd64", OCPVersion := [] }, some GoError.ErrOpenAPISchemaFetch),
        [Call.ServerVersion, Call.ServerGroups, Call.OpenAPISchema]⟩ :=
  ⟨⟨routeGroup, by simp, rfl⟩,
    GetPlatformInfo_schema_fails sampleEnv
      (some ({ fakeCase4 with
        groupList := some ⟨[⟨str "apps"⟩, routeGroup]⟩ } : FakeDiscoverer).discoverer)
      none (some ⟨str "https://cluster"⟩)
      ({ fakeCase4 with
        groupList := some ⟨[⟨str "apps"⟩, routeGroup]⟩ } : FakeDiscoverer).discoverer
      (str "1") (str "2") (str "linux/amd64") ⟨[⟨str "apps"⟩, routeGroup]⟩
      (GoError.foreign (str "oops")) rfl rfl rfl ⟨routeGroup, by simp, rfl⟩ rfl⟩

/-- C12, as stated, fails: with the route group listed twice, a schema
version starting with `v1.1` and a working REST client, one run calls
OpenAPISchema twice and issues the GET twice, six discovery calls in all. -/
theorem GetPlatformInfo_calls_repeat :
    (GetPlatformInfo sampleEnv
        (some (sampleFake [routeGroup, routeGroup] (some ⟨some ⟨str "v1.11.0"⟩⟩)
          (some okClient)).discoverer) none).calls =
      [Call.ServerVersion, Call.ServerGroups,
        Call.OpenAPISchema, Call.RESTClient, Call.Get ClusterVersionApiPath,
        Call.OpenAPISchema, Call.RESTClient, Call.Get ClusterVersionApiPath] ∧
    ¬ (GetPlatformInfo sampleEnv
        (some (sampleFake [routeGroup, routeGroup] (some ⟨some ⟨str "v1.11.0"⟩⟩)
          (some okClient)).discoverer) none).calls.count Call.OpenAPISchema ≤ 1 := by
  decide

/-- C12, amended: for every supplied discoverer whose group list, when it
answers one, holds the name `route.openshift.io` at most once, the calls of
one run of GetPlatformInfo are a start of the sequence ServerVersion,
ServerGroups, OpenAPISchema, RESTClient, GET against the fixed path; so each
is made at most once, in that order. -/
theorem GetPlatformInfo_calls_once (env : Env) (d : Discoverer) (cfg : Option RestConfig)
    (hcount : ∀ gl, (d.ServerGroups [Call.ServerVersion]).1 = some gl →
      gl.Groups.countP (fun g => decide (g.Name = str "route.openshift.io")) ≤ 1) :
    (GetPlatformInfo env (some d) cfg).calls <+:
      [Call.ServerVersion, Call.ServerGroups, Call.OpenAPISchema, Call.RESTClient,
        Call.Get (str "apis/config.openshift.io/v1/clusterversions/version")] := by
  rcases DefaultArgs_supplied env cfg with hfail | ⟨c, hok⟩
  · rw [GetPlatformInfo_defaulting_fails env (some d) cfg GoError.ErrRestConfigFetch
      (by rw [hfail d])]
    simp
  · rcases hsv : d.ServerVersion [] with ⟨vi, e1⟩
    rcases hsg : d.ServerGroups [Call.ServerVersion] with ⟨gl, e2⟩
    cases e1 with
    | some e1 => simp [GetPlatformInfo, hok d, hsv]
    | none =>
      cases vi with
      | none => simp [GetPlatformInfo, hok d, hsv]
      | some vi =>
        cases e2 with
        | some e2 => simp [GetPlatformInfo, hok d, hsv, hsg]
        | none =>
          cases gl with
          | none => simp [GetPlatformInfo, hok d, hsv, hsg]
          | some gl =>
            rw [GetPlatformInfo_eq_scan env (some d) cfg c d vi gl (hok d) hsv hsg]
            obtain ⟨more, hm, hpre⟩ := scanGroups_calls_once env d gl.Groups
              { Name := PlatformType.Kubernetes, OCPVersion := [],
                K8SVersion := vi.Major ++ str "." ++ vi.Minor, OS := vi.Platform }
              [Call.ServerVersion, Call.ServerGroups] (hcount gl (by rw [hsg]))
            rw [hm]
            exact (List.prefix_append_right_inj [Call.ServerVersion, Call.ServerGroups]).2 hpre

/-- C12, amended, at the fallback run with the route group listed once: all
five calls are made, each once. -/
theorem GetPlatformInfo_calls_once_witness :
    (GetPlatformInfo sampleEnv
        (some (sampleFake [routeGroup] (some ⟨some ⟨str "v1.11.0"⟩⟩)
          (some okClient)).discoverer) none).calls =
      [Call.ServerVersion, Call.ServerGroups, Call.OpenAPISchema, Call.RESTClient,
        Call.Get (str "apis/config.openshift.io/v1/clusterversions/version")] ∧
    (GetPlatformInfo sampleEnv
        (some (sampleFake [routeGroup] (some ⟨some ⟨str "v1.11.0"⟩⟩)
          (some okClient)).discoverer) none).calls <+:
      [Call.ServerVersion, Call.ServerGroups, Call.OpenAPISchema, Call.RESTClient,
        Call.Get (str "apis/config.openshift.io/v1/clusterversions/version")] :=
  ⟨by decide,
    GetPlatformInfo_calls_once sampleEnv
      (sampleFake [routeGroup] (some ⟨some ⟨str "v1.11.0"⟩⟩) (some okClient)).discoverer none
      (fun gl hgl => by
        have hgl1 : gl = ⟨[routeGroup]⟩ := (Option.some.inj hgl).symm
        rw [hgl1]
        decide)⟩


/-- C13: DefaultArgs returns (nil, nil, ErrRestConfigFetch) when cfg is nil
and loading the ambient configuration fails, and
(nil, nil, ErrDiscoveryClientFetch) when client is nil, the configuration is
resolved (given, or loaded) and building the discovery client from it fails;
both times GetPlatformInfo returns the descriptor {Kubernetes, all other
fields empty} with ErrDefaultingArgs and calls no operation of a discoverer. -/
theorem DefaultArgs_failures (env : Env) (client : Option Discoverer)
    (cfg : Option RestConfig) :
    (cfg = none → ∀ e, env.GetConfig.2 = some e →
      DefaultArgs env client cfg = (none, none, some GoError.ErrRestConfigFetch) ∧
      GetPlatformInfo env client cfg =
        ⟨Outcome.returned
            ({ Name := PlatformType.Kubernetes, OCPVersion := [], K8SVersion := [], OS := [] },
              some GoError.ErrDefaultingArgs), []⟩) ∧
    (client = none → ∀ cfg1 e,
      (match cfg with
        | none => env.GetConfig
        | some c => (some c, none)) = (cfg1, none) →
      (env.NewDiscoveryClientForConfig cfg1).2 = some e →
      DefaultArgs env client cfg = (none, none, some GoError.ErrDiscoveryClientFetch) ∧
      GetPlatformInfo env client cfg =
        ⟨Outcome.returned
            ({ Name := PlatformType.Kubernetes, OCPVersion := [], K8SVersion := [], OS := [] },
              some GoError.ErrDefaultingArgs), []⟩) := by
  refine ⟨?_, ?_⟩
  · intro hcfg e he
    subst hcfg
    rcases hg : env.GetConfig with ⟨c, oe⟩
    rw [hg] at he
    simp only at he
    subst he
    have hd : DefaultArgs env client none = (none, none, some GoError.ErrRestConfigFetch) := by
      simp [DefaultArgs, hg]
    exact ⟨hd, GetPlatformInfo_defaulting_fails env client none GoError.ErrRestConfigFetch
      (by rw [hd])⟩
  · intro hclient cfg1 e hres hnew
    subst hclient
    rcases hn : env.NewDiscoveryClientForConfig cfg1 with ⟨oc, oe⟩
    rw [hn] at hnew
    simp only at hnew
    subst hnew
    have hd : DefaultArgs env none cfg = (none, none, some GoError.ErrDiscoveryClientFetch) := by
      simp only [DefaultArgs, hres, hn]
    exact ⟨hd, GetPlatformInfo_defaulting_fails env none cfg GoError.ErrDiscoveryClientFetch
      (by rw [hd])⟩

/-- C13 at two runs: a supplied discoverer with no configuration to load, and
no discoverer with a configuration from which no client can be built. -/
theorem DefaultArgs_failures_witness :
    (DefaultArgs noConfigEnv (some fakeCase1.discoverer) none =
        (none, none, some GoError.ErrRestConfigFetch) ∧
      GetPlatformInfo noConfigEnv (some fakeCase1.discoverer) none =
        ⟨Outcome.returned
            ({ Name := PlatformType.Kubernetes, OCPVersion := [], K8SVersion := [], OS := [] },
              some GoError.ErrDefaultingArgs), []⟩) ∧
    (DefaultArgs sampleEnv none (some ⟨str "https://other"⟩) =
        (none, none, some GoError.ErrDiscoveryClientFetch) ∧
      GetPlatformInfo sampleEnv none (some ⟨str "https://other"⟩) =
        ⟨Outcome.returned
            ({ Name := PlatformType.Kubernetes, OCPVersion := [], K8SVersion := [], OS := [] },
              some GoError.ErrDefaultingArgs), []⟩) :=
  ⟨(DefaultArgs_failures noConfigEnv (some fakeCase1.discoverer) none).1 rfl
      (GoError.foreign (str "no kubeconfig")) rfl,
    (DefaultArgs_failures sampleEnv none (some ⟨str "https://other"⟩)).2 rfl
      (some ⟨str "https://other"⟩) (GoError.foreign (str "no client")) rfl rfl⟩

/-- An accounted-for descriptor stays so when it is named OpenShift and more
calls are made. -/
theorem justified_mono (d : Discoverer) (info : PlatformInfo) (calls more : List Call)
    (hj : OCPVersionJustified d info calls) :
    OCPVersionJustified d { info with Name := PlatformType.OpenShift } (calls ++ more) := by
  intro hne
  obtain ⟨_, h, doc, di, hpre, hrest⟩ := hj hne
  exact ⟨rfl, h, doc, di, hpre.trans (List.prefix_append calls more), hrest⟩

/-- A descriptor named OpenShift is accounted for, whatever its OCP version,
once an OpenAPISchema call answered a version starting with one of the two
tags. -/
theorem justified_set (d : Discoverer) (info : PlatformInfo) (h more : List Call)
    (doc : Document) (di : DocumentInfo) (v : GoString)
    (hsc : d.OpenAPISchema h = (some doc, none)) (hdi : doc.Info = some di)
    (htag : di.Version.take 4 = str "v3.1" ∨ di.Version.take 4 = str "v1.1") :
    OCPVersionJustified d
      { info with Name := PlatformType.OpenShift, OCPVersion := v }
      (h ++ Call.OpenAPISchema :: more) := by
  intro _
  exact ⟨rfl, h, doc, di, by simp, hsc, hdi, htag⟩

/-- One round keeps the descriptor accounted for, whether the loop goes on or
the function returns. -/
theorem routeRound_justified (env : Env) (d : Discoverer) (info : PlatformInfo)
    (calls : List Call) (hj : OCPVersionJustified d info calls) :
    (∀ i c, routeRound env d info calls = Round.next i c → OCPVersionJustified d i c) ∧
    (∀ i e c, routeRound env d info calls = Round.stop (Outcome.returned (i, e)) c →
      OCPVersionJustified d i c) := by
  simp only [routeRound]
  repeat' split
  all_goals
    refine ⟨fun i c h => ?_, fun i e c h => ?_⟩ <;> cases h <;>
      (try simp only [List.append_assoc, List.singleton_append]) <;>
      first
        | exact justified_mono d info calls _ hj
        | (refine justified_set d info calls _ ?doc ?di _ ?_ ?_ (Or.inl ?_) <;> assumption)
        | (refine justified_set d info calls _ ?doc ?di _ ?_ ?_ (Or.inr ?_) <;> assumption)

/-- The scan keeps the descriptor accounted for. -/
theorem scanGroups_justified (env : Env) (d : Discoverer) (gs : List APIGroup)
    (info : PlatformInfo) (calls : List Call) (hj : OCPVersionJustified d info calls)
    (i : PlatformInfo) (e : Option GoError)
    (hret : (scanGroups env d gs info calls).outcome = Outcome.returned (i, e)) :
    OCPVersionJustified d i (scanGroups env d gs info calls).calls := by
  induction gs generalizing info calls with
  | nil =>
    simp only [scanGroups, Outcome.returned.injEq, Prod.mk.injEq] at hret
    simp only [scanGroups]
    rw [← hret.1]
    exact hj
  | cons g rest ih =>
    by_cases hg : g.Name = str "route.openshift.io"
    · rw [scanGroups_cons_route env d g rest info calls hg] at hret ⊢
      have hround := routeRound_justified env d info calls hj
      cases hr : routeRound env d info calls with
      | stop o c =>
        rw [hr] at hret
        simp only at hret ⊢
        subst hret
        exact hround.2 i e c hr
      | next i1 c =>
        rw [hr] at hret
        simp only at hret ⊢
        exact ih i1 c (hround.1 i1 c hr) hret
    · rw [scanGroups_cons_other env d g rest info calls hg] at hret ⊢
      exact ih info calls hj hret

/-- C14: whatever the discoverer and whatever the error, a descriptor that
GetPlatformInfo returns with a non-empty OCP version is named OpenShift, and
one of the calls of the run is an OpenAPISchema call that answered a document
whose version starts with `v3.1` or `v1.1`; so a descriptor named Kubernetes
has an empty OCP version. -/
theorem GetPlatformInfo_ocp_version_justified (env : Env) (client : Option Discoverer)
    (cfg : Option RestConfig) (info : PlatformInfo) (err : Option GoError)
    (hret : (GetPlatformInfo env client cfg).outcome = Outcome.returned (info, err)) :
    (info.OCPVersion ≠ [] →
      info.Name = PlatformType.OpenShift ∧
      ∃ d cfg1 h doc docInfo,
        DefaultArgs env client cfg = (some d, cfg1, none) ∧
        h ++ [Call.OpenAPISchema] <+: (GetPlatformInfo env client cfg).calls ∧
        d.OpenAPISchema h = (some doc, none) ∧ doc.Info = some docInfo ∧
        (docInfo.Version.take 4 = str "v3.1" ∨ docInfo.Version.take 4 = str "v1.1")) ∧
    (info.Name = PlatformType.Kubernetes → info.OCPVersion = []) := by
  have hmain : info.OCPVersion ≠ [] →
      info.Name = PlatformType.OpenShift ∧
      ∃ d cfg1 h doc docInfo,
        DefaultArgs env client cfg = (some d, cfg1, none) ∧
        h ++ [Call.OpenAPISchema] <+: (GetPlatformInfo env client cfg).calls ∧
        d.OpenAPISchema h = (some doc, none) ∧ doc.Info = some docInfo ∧
        (docInfo.Version.take 4 = str "v3.1" ∨ docInfo.Version.take 4 = str "v1.1") := by
    intro hne
    rcases hdef : DefaultArgs env client cfg with ⟨od, c, oe⟩
    cases oe with
    | some e0 =>
      rw [GetPlatformInfo_defaulting_fails env client cfg e0 (by rw [hdef])] at hret
      simp only [Outcome.returned.injEq, Prod.mk.injEq] at hret
      rw [← hret.1] at hne
      exact absurd rfl hne
    | none =>
      cases od with
      | none => simp [GetPlatformInfo, hdef] at hret
      | some d =>
        rcases hsv : d.ServerVersion [] with ⟨vi, e1⟩
        rcases hsg : d.ServerGroups [Call.ServerVersion] with ⟨gl, e2⟩
        cases e1 with
        | some e1 =>
          simp only [GetPlatformInfo, hdef, hsv, Outcome.returned.injEq, Prod.mk.injEq] at hret
          rw [← hret.1] at hne
          exact absurd rfl hne
        | none =>
          cases vi with
          | none => simp [GetPlatformInfo, hdef, hsv] at hret
          | some vi =>
            cases e2 with
            | some e2 =>
              simp only [GetPlatformInfo, hdef, hsv, hsg, Outcome.returned.injEq,
                Prod.mk.injEq] at hret
              rw [← hret.1] at hne
              exact absurd rfl hne
            | none =>
              cases gl with
              | none => simp [GetPlatformInfo, hdef, hsv, hsg] at hret
              | some gl =>
                rw [GetPlatformInfo_eq_scan env client cfg c d vi gl hdef hsv hsg] at hret ⊢
                have hj := scanGroups_justified env d gl.Groups
                  { Name := PlatformType.Kubernetes, OCPVersion := [],
                    K8SVersion := vi.Major ++ str "." ++ vi.Minor, OS := vi.Platform }
                  [Call.ServerVersion, Call.ServerGroups] (fun h0 => absurd rfl h0)
                  info err hret
                obtain ⟨hname, h, doc, di, hpre, hrest⟩ := hj hne
                exact ⟨hname, d, c, h, doc, di, rfl, hpre, hrest⟩
  refine ⟨hmain, fun hk => ?_⟩
  by_contra hne
  have hos := (hmain hne).1
  rw [hk] at hos
  cases hos

/-- C14 at case 5 of the test table: the OCP version `v3.11.42` comes with the
name OpenShift. -/
theorem GetPlatformInfo_ocp_version_justified_witness :
    (GetPlatformInfo sampleEnv
        (some (sampleFake [routeGroup] (some ⟨some ⟨str "v3.11.42"⟩⟩) none).discoverer)
        none).outcome =
      Outcome.returned
        ({ Name := PlatformType.OpenShift, K8SVersion := str "1.2",
           OS := str "linux/amd64", OCPVersion := str "v3.11.42" }, none) ∧
    (PlatformType.OpenShift = PlatformType.Kubernetes → str "v3.11.42" = []) :=
  ⟨by decide,
    (GetPlatformInfo_ocp_version_justified sampleEnv
      (some (sampleFake [routeGroup] (some ⟨some ⟨str "v3.11.42"⟩⟩) none).discoverer) none
      { Name := PlatformType.OpenShift, K8SVersion := str "1.2",
        OS := str "linux/amd64", OCPVersion := str "v3.11.42" } none (by decide)).2⟩


/-- A round of a deterministic discoverer does not depend on the calls made
before it: it is the round made after no call, with the calls at hand put in
front. -/
theorem routeRound_det (env : Env) (d : Discoverer) (hdet : d.Deterministic)
    (info : PlatformInfo) (calls : List Call) :
    routeRound env d info calls =
      match routeRound env d info [] with
      | Round.stop o c => Round.stop o (calls ++ c)
      | Round.next i c => Round.next i (calls ++ c) := by
  obtain ⟨_, _, hOA, hRC, hRaw⟩ := hdet
  simp only [routeRound, hOA calls, hRC (calls ++ [Call.OpenAPISchema]),
    hRC ([] ++ [Call.OpenAPISchema])]
  rcases d.OpenAPISchema [] with ⟨odoc, oerr⟩
  cases oerr with
  | some e => simp
  | none =>
    cases odoc with
    | none => simp
    | some doc =>
      cases hdi : doc.Info with
      | none => simp [hdi]
      | some di =>
        simp only [hdi]
        split_ifs
        · simp
        · simp
        · cases hrc : d.RESTClient [] with
          | none => simp
          | some rc =>
            simp only
            rw [hRaw rc hrc ClusterVersionApiPath
                (calls ++ [Call.OpenAPISchema] ++ [Call.RESTClient]),
              hRaw rc hrc ClusterVersionApiPath
                ([] ++ [Call.OpenAPISchema] ++ [Call.RESTClient])]
            rcases hraw : rc.Raw ClusterVersionApiPath [] with ⟨body, rerr⟩
            cases rerr with
            | some e => simp
            | none =>
              simp only
              rcases hjson : env.jsonUnmarshal body with ⟨cvi, jerr⟩
              cases jerr with
              | some e => simp
              | none => simp
        · simp

/-- A round of a deterministic discoverer that lets the loop go on changes
nothing when it is run again on its own descriptor. -/
theorem routeRound_idem (env : Env) (d : Discoverer) (info i : PlatformInfo) (c : List Call)
    (h : routeRound env d info [] = Round.next i c) :
    routeRound env d i [] = Round.next i c := by
  simp only [routeRound] at h ⊢
  repeat' split at h
  all_goals cases h <;> simp [*, str_v11_ne_v31]

/-- The scan from a descriptor that every round leaves as it is returns that
descriptor with a nil error. -/
theorem scanGroups_fixed (env : Env) (d : Discoverer) (i : PlatformInfo)
    (hfix : ∀ calls, ∃ c, routeRound env d i calls = Round.next i c)
    (gs : List APIGroup) (calls : List Call) :
    (scanGroups env d gs i calls).outcome = Outcome.returned (i, none) := by
  induction gs generalizing calls with
  | nil => rfl
  | cons g rest ih =>
    by_cases hg : g.Name = str "route.openshift.io"
    · obtain ⟨c, hc⟩ := hfix calls
      rw [scanGroups_cons_route env d g rest i calls hg, hc]
      exact ih c
    · rw [scanGroups_cons_other env d g rest i calls hg]
      exact ih calls

/-- The scan of a list holding the route group, for a deterministic
discoverer, is settled by one round: the run of that round when it stops, its
descriptor with a nil error when it lets the loop go on. -/
theorem scanGroups_det (env : Env) (d : Discoverer) (hdet : d.Deterministic)
    (gs : List APIGroup) (info : PlatformInfo) (calls : List Call)
    (hroute : ∃ g ∈ gs, g.Name = str "route.openshift.io") :
    (∀ o c, routeRound env d info [] = Round.stop o c →
      scanGroups env d gs info calls = ⟨o, calls ++ c⟩) ∧
    (∀ i c, routeRound env d info [] = Round.next i c →
      (scanGroups env d gs info calls).outcome = Outcome.returned (i, none)) := by
  induction gs with
  | nil => simp at hroute
  | cons g rest ih =>
    by_cases hg : g.Name = str "route.openshift.io"
    · rw [scanGroups_cons_route env d g rest info calls hg, routeRound_det env d hdet info calls]
      refine ⟨fun o c h => ?_, fun i c h => ?_⟩
      · rw [h]
      · rw [h]
        refine scanGroups_fixed env d i (fun calls1 => ?_) rest (calls ++ c)
        refine ⟨calls1 ++ c, ?_⟩
        rw [routeRound_det env d hdet i calls1, routeRound_idem env d info i c h]
    · rw [scanGroups_cons_other env d g rest info calls hg]
      exact ih (route_in_tail g rest hroute hg)

/-- Two deterministic discoverers with the same schema answer and the same
REST client make the same round. -/
theorem routeRound_congr (env : Env) (d1 d2 : Discoverer)
    (hdet1 : d1.Deterministic) (hdet2 : d2.Deterministic)
    (hsc : d1.OpenAPISchema [] = d2.OpenAPISchema [])
    (hrc : d1.RESTClient [] = d2.RESTClient [])
    (info : PlatformInfo) :
    routeRound env d1 info [] = routeRound env d2 info [] := by
  simp only [routeRound, hsc, hdet1.2.2.2.1 ([] ++ [Call.OpenAPISchema]),
    hdet2.2.2.2.1 ([] ++ [Call.OpenAPISchema]), hrc]

/-- C18: two deterministic discoverers that answer the same but for the group
list, with group lists that agree on holding a group named
`route.openshift.io`, make GetPlatformInfo end the same way: the same
descriptor and the same error (or the same panic). -/
theorem GetPlatformInfo_group_membership (env : Env) (cfg : Option RestConfig)
    (d1 d2 : Discoverer) (gl1 gl2 : APIGroupList)
    (hdet1 : d1.Deterministic) (hdet2 : d2.Deterministic)
    (hsv : d1.ServerVersion [] = d2.ServerVersion [])
    (hsc : d1.OpenAPISchema [] = d2.OpenAPISchema [])
    (hrc : d1.RESTClient [] = d2.RESTClient [])
    (hsg1 : d1.ServerGroups [] = (some gl1, none))
    (hsg2 : d2.ServerGroups [] = (some gl2, none))
    (hagree : (∃ g ∈ gl1.Groups, g.Name = str "route.openshift.io") ↔
      (∃ g ∈ gl2.Groups, g.Name = str "route.openshift.io")) :
    (GetPlatformInfo env (some d1) cfg).outcome =
      (GetPlatformInfo env (some d2) cfg).outcome := by
  rcases DefaultArgs_supplied env cfg with hfail | ⟨c, hok⟩
  · rw [GetPlatformInfo_defaulting_fails env (some d1) cfg GoError.ErrRestConfigFetch
        (by rw [hfail d1]),
      GetPlatformInfo_defaulting_fails env (some d2) cfg GoError.ErrRestConfigFetch
        (by rw [hfail d2])]
  · have hsg1a : d1.ServerGroups [Call.ServerVersion] = (some gl1, none) := by
      rw [hdet1.2.1 [Call.ServerVersion], hsg1]
    have hsg2a : d2.ServerGroups [Call.ServerVersion] = (some gl2, none) := by
      rw [hdet2.2.1 [Call.ServerVersion], hsg2]
    rcases hsv2 : d2.ServerVersion [] with ⟨vi, e1⟩
    have hsv1 : d1.ServerVersion [] = (vi, e1) := by rw [hsv, hsv2]
    cases e1 with
    | some e1 => simp [GetPlatformInfo, hok d1, hok d2, hsv1, hsv2]
    | none =>
      cases vi with
      | none => simp [GetPlatformInfo, hok d1, hok d2, hsv1, hsv2]
      | some vi =>
        rw [GetPlatformInfo_eq_scan env (some d1) cfg c d1 vi gl1 (hok d1) hsv1 hsg1a,
          GetPlatformInfo_eq_scan env (some d2) cfg c d2 vi gl2 (hok d2) hsv2 hsg2a]
        by_cases hroute : ∃ g ∈ gl1.Groups, g.Name = str "route.openshift.io"
        · have hroute2 := hagree.1 hroute
          have h1 := scanGroups_det env d1 hdet1 gl1.Groups
            { Name := PlatformType.Kubernetes, OCPVersion := [],
              K8SVersion := vi.Major ++ str "." ++ vi.Minor, OS := vi.Platform }
            [Call.ServerVersion, Call.ServerGroups] hroute
          have h2 := scanGroups_det env d2 hdet2 gl2.Groups
            { Name := PlatformType.Kubernetes, OCPVersion := [],
              K8SVersion := vi.Major ++ str "." ++ vi.Minor, OS := vi.Platform }
            [Call.ServerVersion, Call.ServerGroups] hroute2
          rw [routeRound_congr env d1 d2 hdet1 hdet2 hsc hrc] at h1
          cases hr : routeRound env d2
              { Name := PlatformType.Kubernetes, OCPVersion := [],
                K8SVersion := vi.Major ++ str "." ++ vi.Minor, OS := vi.Platform } [] with
          | stop o c0 => rw [h1.1 o c0 hr, h2.1 o c0 hr]
          | next i c0 => rw [h1.2 i c0 hr, h2.2 i c0 hr]
        · have hno1 : ∀ x ∈ gl1.Groups, x.Name ≠ str "route.openshift.io" :=
            fun x hx hxn => hroute ⟨x, hx, hxn⟩
          have hno2 : ∀ x ∈ gl2.Groups, x.Name ≠ str "route.openshift.io" :=
            fun x hx hxn => hroute (hagree.2 ⟨x, hx, hxn⟩)
          rw [scanGroups_no_route env d1 gl1.Groups _ _ hno1,
            scanGroups_no_route env d2 gl2.Groups _ _ hno2]


/-- The fake discoverer of the tests is deterministic when its REST client
is. -/
theorem fake_deterministic (f : FakeDiscoverer)
    (hc : ∀ rc, f.client = some rc → ∀ p h, rc.Raw p h = rc.Raw p []) :
    f.discoverer.Deterministic :=
  ⟨fun _ => rfl, fun _ => rfl, fun _ => rfl, fun _ => rfl, fun rc hrc => hc rc hrc⟩

/-- C18 at the fake discoverer of the tests with schema version `v3.11.42`:
the list holding only the route group, and a list with an unrelated group in
front and the route group twice. -/
theorem GetPlatformInfo_group_membership_witness :
    ((∃ g ∈ [routeGroup], g.Name = str "route.openshift.io") ↔
      (∃ g ∈ [(⟨str "apps"⟩ : APIGroup), routeGroup, routeGroup],
        g.Name = str "route.openshift.io")) ∧
    (GetPlatformInfo sampleEnv
        (some (sampleFake [routeGroup] (some ⟨some ⟨str "v3.11.42"⟩⟩) none).discoverer)
        none).outcome =
      (GetPlatformInfo sampleEnv
        (some (sampleFake [⟨str "apps"⟩, routeGroup, routeGroup]
          (some ⟨some ⟨str "v3.11.42"⟩⟩) none).discoverer) none).outcome :=
  ⟨by decide,
    GetPlatformInfo_group_membership sampleEnv none
      (sampleFake [routeGroup] (some ⟨some ⟨str "v3.11.42"⟩⟩) none).discoverer
      (sampleFake [⟨str "apps"⟩, routeGroup, routeGroup]
        (some ⟨some ⟨str "v3.11.42"⟩⟩) none).discoverer
      ⟨[routeGroup]⟩ ⟨[⟨str "apps"⟩, routeGroup, routeGroup]⟩
      (fake_deterministic _ (fun rc hrc => nomatch hrc))
      (fake_deterministic _ (fun rc hrc => nomatch hrc))
      rfl rfl rfl rfl rfl (by decide)⟩

/-- C16: IsOpenShift(cfg) is DetectOpenShift(nil, cfg), that is the result of
K8SBasedPlatformVersioner.GetPlatformInfo(nil, cfg) collapsed: (false,
ErrInfoFetch) on an error, else whether the name is OpenShift with a nil
error. -/
theorem IsOpenShift_eq_DetectOpenShift (env : Env) (cfg : Option RestConfig) :
    openshift.IsOpenShift env cfg = openshift.DetectOpenShift env none cfg ∧
    openshift.IsOpenShift env cfg =
      match (GetPlatformInfo env none cfg).outcome with
      | Outcome.panicked p => Outcome.panicked p
      | Outcome.returned (_, some _) => Outcome.returned (false, some GoError.ErrInfoFetch)
      | Outcome.returned (info, none) =>
        Outcome.returned (decide (info.Name = PlatformType.OpenShift), none) :=
  ⟨rfl, rfl⟩

/-- C17: with the discoverer of test case 1 supplied (its ServerVersion
fails) and a nil configuration, GetPlatformInfo returns ErrDefaultingArgs
without calling the discoverer when the ambient configuration cannot be
loaded, and ErrK8SVersionFetch when it can: the result is not settled by the
discoverer alone. -/
theorem GetPlatformInfo_supplied_discoverer_needs_config :
    GetPlatformInfo noConfigEnv (some fakeCase1.discoverer) none =
      ⟨Outcome.returned
          ({ Name := PlatformType.Kubernetes, OCPVersion := [], K8SVersion := [], OS := [] },
            some GoError.ErrDefaultingArgs), []⟩ ∧
    GetPlatformInfo sampleEnv (some fakeCase1.discoverer) none =
      ⟨Outcome.returned
          ({ Name := PlatformType.Kubernetes, OCPVersion := [], K8SVersion := [], OS := [] },
            some GoError.ErrK8SVersionFetch), [Call.ServerVersion]⟩ := by
  decide

/-- Whether a list holds the route group, as a proposition. -/
theorem hasRouteGroup_iff (gs : List APIGroup) :
    hasRouteGroup gs = true ↔ ∃ g ∈ gs, g.Name = str "route.openshift.io" := by
  simp [hasRouteGroup, List.any_eq_true]

/-- No step is run and fails exactly when no first such step is found. -/
theorem firstFailingStep_none_iff (env : Env) (d : Discoverer) (cfg : Option RestConfig) :
    firstFailingStep env d cfg = none ↔
      ∀ s, stepRuns d s = true → stepFails env d cfg s = false := by
  simp only [firstFailingStep, List.find?_eq_none, fixedOrder]
  constructor
  · intro h s hs
    have hmem : s ∈ [Step.defaulting, Step.serverVersion, Step.serverGroups,
        Step.openAPISchema, Step.rawGet, Step.payloadParse] := by
      cases s <;> simp
    have := h s hmem
    simpa [hs] using this
  · intro h s _
    cases hr : stepRuns d s with
    | false => simp
    | true => simp [h s hr]


/-- Closing step for a run that returned an error: the error and the calls
are those of the first failing step. -/
theorem close_failing (r : Run) (info : PlatformInfo) (err : Option GoError)
    (hret : r.outcome = Outcome.returned (info, err))
    (i : PlatformInfo) (e0 : GoError) (cs : List Call)
    (hrun : r = ⟨Outcome.returned (i, some e0), cs⟩)
    (ffs : Option Step) (s0 : Step) (hffs : ffs = some s0)
    (hk : s0.kind = e0) (hc : cs = s0.callsThrough) :
    err = ffs.map Step.kind ∧ ∀ s, ffs = some s → r.calls = s.callsThrough := by
  subst hrun hffs hk hc
  simp only [Outcome.returned.injEq, Prod.mk.injEq] at hret
  refine ⟨by rw [← hret.2]; rfl, fun s hs => ?_⟩
  cases hs
  rfl

/-- Closing step for a run that returned a nil error: no step fails. -/
theorem close_passing (r : Run) (info : PlatformInfo) (err : Option GoError)
    (hret : r.outcome = Outcome.returned (info, err))
    (i : PlatformInfo) (hout : r.outcome = Outcome.returned (i, none))
    (ffs : Option Step) (hffs : ffs = none) :
    err = ffs.map Step.kind ∧ ∀ s, ffs = some s → r.calls = s.callsThrough := by
  subst hffs
  rw [hout] at hret
  simp only [Outcome.returned.injEq, Prod.mk.injEq] at hret
  exact ⟨by rw [← hret.2]; rfl, fun s hs => by cases hs⟩

/-- A run of GetPlatformInfo on a supplied deterministic discoverer that
returns, returns the error kind of the first step that is run and fails, and
has then made the calls up to that step and no other. -/
theorem GetPlatformInfo_det_failure (env : Env) (d : Discoverer) (cfg : Option RestConfig)
    (hdet : d.Deterministic) (info : PlatformInfo) (err : Option GoError)
    (hret : (GetPlatformInfo env (some d) cfg).outcome = Outcome.returned (info, err)) :
    err = (firstFailingStep env d cfg).map Step.kind ∧
    ∀ s, firstFailingStep env d cfg = some s →
      (GetPlatformInfo env (some d) cfg).calls = s.callsThrough := by
  have hdet0 := hdet
  obtain ⟨_, hSG, hOA, hRC, hRaw⟩ := hdet
  rcases DefaultArgs_supplied env cfg with hfail | ⟨c, hok⟩
  · exact close_failing _ info err hret _ _ _
      (GetPlatformInfo_defaulting_fails env (some d) cfg GoError.ErrRestConfigFetch
        (by rw [hfail d]))
      _ Step.defaulting
      (by simp [firstFailingStep, fixedOrder, stepRuns, stepFails, hfail d]) rfl rfl
  · rcases hsv : d.ServerVersion [] with ⟨ovi, e1⟩
    cases e1 with
    | some e1 =>
      exact close_failing _ info err hret
        ⟨PlatformType.Kubernetes, [], [], []⟩ GoError.ErrK8SVersionFetch [Call.ServerVersion]
        (by simp [GetPlatformInfo, hok d, hsv])
        _ Step.serverVersion
        (by simp [firstFailingStep, fixedOrder, stepRuns, stepFails, hok d, hsv]) rfl rfl
    | none =>
      cases ovi with
      | none => simp [GetPlatformInfo, hok d, hsv] at hret
      | some vi =>
        rcases hsg : d.ServerGroups [] with ⟨ogl, e2⟩
        have hsg1 : d.ServerGroups [Call.ServerVersion] = (ogl, e2) := by rw [hSG, hsg]
        cases e2 with
        | some e2 =>
          exact close_failing _ info err hret
            ⟨PlatformType.Kubernetes, [], vi.Major ++ str "." ++ vi.Minor, vi.Platform⟩
            GoError.ErrServerGroupsFetch [Call.ServerVersion, Call.ServerGroups]
            (by simp [GetPlatformInfo, hok d, hsv, hsg1])
            _ Step.serverGroups
            (by simp [firstFailingStep, fixedOrder, stepRuns, stepFails, hok d, hsv, hsg])
            rfl rfl
        | none =>
          cases ogl with
          | none => simp [GetPlatformInfo, hok d, hsv, hsg1] at hret
          | some gl =>
            have heq := GetPlatformInfo_eq_scan env (some d) cfg c d vi gl (hok d) hsv hsg1
            obtain ⟨info0, hinfo0⟩ : ∃ x : PlatformInfo,
                x = ⟨PlatformType.Kubernetes, [], vi.Major ++ str "." ++ vi.Minor,
                  vi.Platform⟩ := ⟨_, rfl⟩
            rw [← hinfo0] at heq
            by_cases hroute : ∃ g ∈ gl.Groups, g.Name = str "route.openshift.io"
            · have hhas : hasRouteGroup gl.Groups = true := (hasRouteGroup_iff _).2 hroute
              have hscan := scanGroups_det env d hdet0 gl.Groups info0
                [Call.ServerVersion, Call.ServerGroups] hroute
              rcases hsc : d.OpenAPISchema [] with ⟨odoc, e3⟩
              cases e3 with
              | some e3 =>
                exact close_failing _ info err hret _ _ _
                  (heq.trans (hscan.1
                    (Outcome.returned ({ info0 with Name := PlatformType.OpenShift },
                      some GoError.ErrOpenAPISchemaFetch))
                    ([] ++ [Call.OpenAPISchema]) (by simp [routeRound, hsc])))
                  _ Step.openAPISchema
                  (by simp [firstFailingStep, fixedOrder, stepRuns, stepFails, hok d, hsv, hsg,
                    hhas, hsc]) rfl rfl
              | none =>
                cases odoc with
                | none =>
                  have hrun := heq.trans (hscan.1 (Outcome.panicked Panic.nilDereference)
                    ([] ++ [Call.OpenAPISchema]) (by simp [routeRound, hsc]))
                  rw [hrun] at hret
                  cases hret
                | some doc =>
                  cases hdi : doc.Info with
                  | none =>
                    have hrun := heq.trans (hscan.1 (Outcome.panicked Panic.nilDereference)
                      ([] ++ [Call.OpenAPISchema]) (by simp [routeRound, hsc, hdi]))
                    rw [hrun] at hret
                    cases hret
                  | some di =>
                    have hver : schemaVersion d = some di.Version := by
                      simp [schemaVersion, hsc, hdi]
                    by_cases hlen : di.Version.length < 4
                    · have hrun := heq.trans (hscan.1 (Outcome.panicked Panic.sliceOutOfRange)
                        ([] ++ [Call.OpenAPISchema]) (by simp [routeRound, hsc, hdi, hlen]))
                      rw [hrun] at hret
                      cases hret
                    · by_cases h31 : di.Version.take 4 = str "v3.1"
                      · have h11 : di.Version.take 4 ≠ str "v1.1" := by
                          rw [h31]
                          exact fun h => str_v11_ne_v31 h.symm
                        exact close_passing _ info err hret
                          { info0 with Name := PlatformType.OpenShift, OCPVersion := di.Version }
                          (by
                            rw [heq]
                            exact hscan.2 _ ([] ++ [Call.OpenAPISchema])
                              (by simp [routeRound, hsc, hdi, hlen, h31]))
                          _ (by simp [firstFailingStep, fixedOrder, stepRuns, stepFails, hok d,
                            hsv, hsg, hhas, hsc, hver, h11])
                      · by_cases h11 : di.Version.take 4 = str "v1.1"
                        · have hrc1 : d.RESTClient [Call.OpenAPISchema] = d.RESTClient [] :=
                            hRC _
                          cases hrc : d.RESTClient [] with
                          | none =>
                            rw [hrc] at hrc1
                            have hrun := heq.trans (hscan.1
                              (Outcome.panicked Panic.nilDereference)
                              ([] ++ [Call.OpenAPISchema] ++ [Call.RESTClient])
                              (by simp [routeRound, hsc, hdi, hlen, h31, h11, str_v11_ne_v31, hrc1]))
                            rw [hrun] at hret
                            cases hret
                          | some rc =>
                            rw [hrc] at hrc1
                            have hraw1 : rc.Raw ClusterVersionApiPath
                                [Call.OpenAPISchema, Call.RESTClient] =
                                rc.Raw ClusterVersionApiPath [] := hRaw rc hrc _ _
                            rcases hraw : rc.Raw ClusterVersionApiPath [] with ⟨body, e4⟩
                            rw [hraw] at hraw1
                            cases e4 with
                            | some e4 =>
                              exact close_failing _ info err hret _ _ _
                                (heq.trans (hscan.1
                                  (Outcome.returned
                                    ({ info0 with Name := PlatformType.OpenShift },
                                      some GoError.ErrClusterVersionFetch))
                                  ([] ++ [Call.OpenAPISchema] ++ [Call.RESTClient] ++
                                    [Call.Get ClusterVersionApiPath])
                                  (by simp [routeRound, hsc, hdi, hlen, h31, h11, str_v11_ne_v31, hrc1, hraw1])))
                                _ Step.rawGet
                                (by simp [firstFailingStep, fixedOrder, stepRuns, stepFails,
                                  hok d, hsv, hsg, hhas, hsc, hver, h11, hrc, hraw]) rfl rfl
                            | none =>
                              rcases hjson : env.jsonUnmarshal body with ⟨cvi, e5⟩
                              cases e5 with
                              | some e5 =>
                                exact close_failing _ info err hret _ _ _
                                  (heq.trans (hscan.1
                                    (Outcome.returned
                                      ({ info0 with Name := PlatformType.OpenShift },
                                        some GoError.ErrVersionMarshalling))
                                    ([] ++ [Call.OpenAPISchema] ++ [Call.RESTClient] ++
                                      [Call.Get ClusterVersionApiPath])
                                    (by simp [routeRound, hsc, hdi, hlen, h31, h11, str_v11_ne_v31, hrc1, hraw1,
                                      hjson])))
                                  _ Step.payloadParse
                                  (by simp [firstFailingStep, fixedOrder, stepRuns, stepFails,
                                    hok d, hsv, hsg, hhas, hsc, hver, h11, hrc, hraw, hjson])
                                  rfl rfl
                              | none =>
                                exact close_passing _ info err hret
                                  { info0 with Name := PlatformType.OpenShift,
                                               OCPVersion := cvi.Status.Desired.Version }
                                  (by
                                    rw [heq]
                                    exact hscan.2 _
                                      ([] ++ [Call.OpenAPISchema] ++ [Call.RESTClient] ++
                                        [Call.Get ClusterVersionApiPath])
                                      (by simp [routeRound, hsc, hdi, hlen, h31, h11, str_v11_ne_v31, hrc1,
                                        hraw1, hjson]))
                                  _ (by simp [firstFailingStep, fixedOrder, stepRuns, stepFails,
                                    hok d, hsv, hsg, hhas, hsc, hver, h11, hrc, hraw, hjson])
                        · exact close_passing _ info err hret
                            { info0 with Name := PlatformType.OpenShift }
                            (by
                              rw [heq]
                              exact hscan.2 _ ([] ++ [Call.OpenAPISchema])
                                (by simp [routeRound, hsc, hdi, hlen, h31, h11]))
                            _ (by simp [firstFailingStep, fixedOrder, stepRuns, stepFails, hok d,
                              hsv, hsg, hhas, hsc, hver, h11])
            · have hhas : hasRouteGroup gl.Groups = false := by
                cases hh : hasRouteGroup gl.Groups with
                | false => rfl
                | true => exact absurd ((hasRouteGroup_iff _).1 hh) hroute
              have hno : ∀ x ∈ gl.Groups, x.Name ≠ str "route.openshift.io" :=
                fun x hx hxn => hroute ⟨x, hx, hxn⟩
              exact close_passing _ info err hret info0
                (by rw [heq, scanGroups_no_route env d gl.Groups _ _ hno])
                _ (by simp [firstFailingStep, fixedOrder, stepRuns, stepFails, hok d, hsv, hsg,
                  hhas])


/-- C15: for every supplied deterministic discoverer, when GetPlatformInfo
returns, its error is the kind of the first step, in the order defaulting,
ServerVersion, ServerGroups, OpenAPISchema, raw GET, payload parse, that is
run and fails, whatever later steps would do; the calls made are then those
up to the failing step and none after it; the error is nil exactly when no
step that is run fails; and the error is nil or one of ErrDefaultingArgs,
ErrK8SVersionFetch, ErrServerGroupsFetch, ErrOpenAPISchemaFetch,
ErrClusterVersionFetch, ErrVersionMarshalling. -/
theorem GetPlatformInfo_first_failing_step (env : Env) (d : Discoverer)
    (cfg : Option RestConfig) (hdet : d.Deterministic)
    (info : PlatformInfo) (err : Option GoError)
    (hret : (GetPlatformInfo env (some d) cfg).outcome = Outcome.returned (info, err)) :
    err = (firstFailingStep env d cfg).map Step.kind ∧
    (∀ s, firstFailingStep env d cfg = some s →
      (GetPlatformInfo env (some d) cfg).calls = s.callsThrough) ∧
    (err = none ↔ ∀ s, stepRuns d s = true → stepFails env d cfg s = false) ∧
    (err = none ∨ err = some GoError.ErrDefaultingArgs ∨
      err = some GoError.ErrK8SVersionFetch ∨ err = some GoError.ErrServerGroupsFetch ∨
      err = some GoError.ErrOpenAPISchemaFetch ∨ err = some GoError.ErrClusterVersionFetch ∨
      err = some GoError.ErrVersionMarshalling) := by
  obtain ⟨herr, hcalls⟩ := GetPlatformInfo_det_failure env d cfg hdet info err hret
  refine ⟨herr, hcalls, ?_, ?_⟩
  · rw [← firstFailingStep_none_iff, herr]
    cases firstFailingStep env d cfg <;> simp
  · rw [herr]
    cases firstFailingStep env d cfg with
    | none => exact Or.inl rfl
    | some s => cases s <;> simp [Step.kind]

/-- C15 at a fake discoverer whose ServerVersion and ServerGroups are both
set to fail: the first failing step is the version fetch, its kind is the
error returned, and ServerVersion is the only call made. -/
theorem GetPlatformInfo_first_failing_step_witness :
    (GetPlatformInfo sampleEnv
        (some ({ fakeCase1 with
          ServerGroupsError := some (GoError.foreign (str "oops")) } :
            FakeDiscoverer).discoverer) none).outcome =
      Outcome.returned
        ({ Name := PlatformType.Kubernetes, OCPVersion := [], K8SVersion := [], OS := [] },
          some GoError.ErrK8SVersionFetch) ∧
    firstFailingStep sampleEnv
        ({ fakeCase1 with
          ServerGroupsError := some (GoError.foreign (str "oops")) } :
            FakeDiscoverer).discoverer none = some Step.serverVersion ∧
    (GetPlatformInfo sampleEnv
        (some ({ fakeCase1 with
          ServerGroupsError := some (GoError.foreign (str "oops")) } :
            FakeDiscoverer).discoverer) none).calls = Step.serverVersion.callsThrough :=
  ⟨by decide, by decide,
    (GetPlatformInfo_first_failing_step sampleEnv
      ({ fakeCase1 with
        ServerGroupsError := some (GoError.foreign (str "oops")) } :
          FakeDiscoverer).discoverer none
      (fake_deterministic _ (fun rc hrc => nomatch hrc))
      { Name := PlatformType.Kubernetes, OCPVersion := [], K8SVersion := [], OS := [] }
      (some GoError.ErrK8SVersionFetch) (by decide)).2.1 Step.serverVersion (by decide)⟩

end platform
